import Mathlib

/-!
Verification of the session shopping-cart engine of the aurada-functions
repository (source file src/cart.js).  The JavaScript handlers are shallowly
embedded as pure Lean functions: DynamoDB persistence becomes an explicit
`Store` value threaded through each operation, JS numbers become rationals
(menu prices are integer cents, cart prices are decimal dollars =
cents / 100), and JS falsiness of string/number arguments pulled from the
request body is modelled with `Option` plus explicit emptiness checks.
String primitives (includes, trim, toLowerCase, endsWith, join, sort) are
given structural definitions over the character list so that every
operation evaluates inside the kernel.  Each handler returns the pair of
its HTTP-style response and the resulting store; on every error path the
store is returned unchanged, mirroring the fact that the code performs its
single DynamoDB put only at the end of a successful mutation.
-/

namespace AuradaCart

/-- Is the first list a leading segment of the second one? -/
def leadsWith : List Char → List Char → Bool
  | [], _ => true
  | _ :: _, [] => false
  | a :: as, b :: bs => a = b && leadsWith as bs

/-- Does `sub` occur contiguously inside the second list? -/
def subOccurs (sub : List Char) : List Char → Bool
  | [] => leadsWith sub []
  | c :: rest => leadsWith sub (c :: rest) || subOccurs sub rest

/-- JS `String.prototype.includes`: substring containment
(every string includes the empty string). -/
def strContains (s sub : String) : Bool := subOccurs sub.data s.data

/-- JS `String.prototype.trim`: strip leading and trailing whitespace. -/
def jsTrim (s : String) : String :=
  ⟨(((s.data.dropWhile Char.isWhitespace).reverse).dropWhile Char.isWhitespace).reverse⟩

/-- JS `String.prototype.toLowerCase` (ASCII, which covers the menu data). -/
def lowerStr (s : String) : String := ⟨s.data.map Char.toLower⟩

/-- JS `String.prototype.toUpperCase` (ASCII, which covers the menu data). -/
def upperStr (s : String) : String := ⟨s.data.map Char.toUpper⟩

/-- JS `String.prototype.endsWith`. -/
def endsWithStr (s suf : String) : Bool := leadsWith suf.data.reverse s.data.reverse

/-- JS `Array.prototype.join(sep)`. -/
def joinSep (sep : String) : List String → String
  | [] => ""
  | [s] => s
  | s :: rest => s ++ sep ++ joinSep sep rest

/-- Lexicographic comparison of character lists (the order JS
`Array.prototype.sort()` uses on strings). -/
def charListLe : List Char → List Char → Bool
  | [], _ => true
  | _ :: _, [] => false
  | a :: as, b :: bs => if a < b then true else if b < a then false else charListLe as bs

/-- Insert a string into a sorted list of strings. -/
def insertSorted (s : String) : List String → List String
  | [] => [s]
  | t :: rest => if charListLe s.data t.data then s :: t :: rest else t :: insertSorted s rest

/-- JS `Array.prototype.sort()` on an array of strings (insertion sort; the
cart code only ever compares the sorted arrays for equality, for which any
correct sort is interchangeable). -/
def sortStrings : List String → List String
  | [] => []
  | s :: rest => insertSorted s (sortStrings rest)

/-- JS truthiness of an optional string argument pulled out of the request
body: `undefined` and the empty string are falsy. -/
def jsTruthy : Option String → Bool
  | none => false
  | some s => s ≠ ""

/-- A modifier option inside a menu modifier category (price in integer
cents), as stored in the clientMenu table and read by cart.js. -/
structure ModifierOption where
  id : String
  name : String
  price : Int
  currency : String
deriving Repr, DecidableEq, Inhabited

/-- A modifier category of a menu item (cart.js reads `cat.category` and
`cat.options`). -/
structure ModifierCategory where
  category : String
  options : List ModifierOption
deriving Repr, DecidableEq, Inhabited

/-- A menu item as looked up by name in the location menu (price in cents). -/
structure MenuItem where
  variation_id : String
  price : Int
  currency : String
  description : String
  modifiers : List ModifierCategory
deriving Repr, DecidableEq, Inhabited

/-- A modifier applied to a cart line item (price already converted to
dollars), as built by findSpiceLevelModifier / findModifierInCategory. -/
structure AppliedModifier where
  category : String
  optionId : String
  optionName : String
  price : ℚ
  currency : String
deriving Repr, DecidableEq, Inhabited

/-- A cart line item as built by addToCart.  The JS object also carries a
`price_money` wrapper that merely duplicates `price`/`currency` for the
payment processor; it is omitted here because no cart operation reads it. -/
structure CartItem where
  variation_id : String
  item_name : String
  price : Int
  currency : String
  description : String
  quantity : ℚ
  specialInstructions : String
  unitPrice : ℚ
  lineTotal : ℚ
  modifiers : List AppliedModifier
  itemId : String
  name : String
deriving Repr, DecidableEq, Inhabited

/-- The location menu: a mapping from item name to menu item
(`locationMenu[itemName]`). -/
abbrev Menu := List (String × MenuItem)

/-- Direct access `locationMenu[itemName]`. -/
def menuLookup (menu : Menu) (n : String) : Option MenuItem :=
  (menu.find? (fun p => p.1 = n)).map (fun p => p.2)

/-- Helper to find and apply spice level modifiers (cart.js
findSpiceLevelModifier).  For 2PC items it looks in the first/second sandwich
mod category, otherwise in the first category whose name contains
"spice level" (case-insensitive); the option is matched on trimmed,
case-insensitive name, and its cent price is converted to dollars. -/
def findSpiceLevelModifier (menuItem : MenuItem) (spiceLevel : String)
    (isFirstItem : Bool) (is2PcItem : Bool) : Option AppliedModifier :=
  if spiceLevel = "" then none else
  let targetCategory :=
    if is2PcItem then
      let categoryName := if isFirstItem then "Choose Your First Sandwich Mods"
        else "Choose Your Second Sandwich Mods"
      menuItem.modifiers.find? (fun cat => cat.category = categoryName)
    else
      menuItem.modifiers.find? (fun cat => strContains (lowerStr cat.category) "spice level")
  match targetCategory with
  | none => none
  | some cat =>
    match cat.options.find? (fun o => lowerStr (jsTrim o.name) = lowerStr spiceLevel) with
    | none => none
    | some o => some ⟨cat.category, o.id, o.name, (o.price : ℚ) / 100, o.currency⟩

/-- Helper to find a modifier in a specific category (cart.js
findModifierInCategory): exact category name, trimmed case-sensitive option
name, cent price converted to dollars. -/
def findModifierInCategory (menuItem : MenuItem) (modifierName : String)
    (targetCategoryName : String) : Option AppliedModifier :=
  if modifierName = "" then none else
  match menuItem.modifiers.find? (fun cat => cat.category = targetCategoryName) with
  | none => none
  | some cat =>
    match cat.options.find? (fun o => jsTrim o.name = jsTrim modifierName) with
    | none => none
    | some o => some ⟨cat.category, o.id, o.name, (o.price : ℚ) / 100, o.currency⟩

/-- The single-item resolution loop of addModifierToCart: scan all categories
in order and take the first option whose trimmed name matches; the currency
falls back to "USD" when the option has none. -/
def findModifierAnyCategory (menuItem : MenuItem) (modifierName : String) :
    Option AppliedModifier :=
  go menuItem.modifiers
where
  go : List ModifierCategory → Option AppliedModifier
    | [] => none
    | cat :: rest =>
      match cat.options.find? (fun o => jsTrim o.name = jsTrim modifierName) with
      | some o =>
        some ⟨cat.category, o.id, o.name, (o.price : ℚ) / 100,
          if o.currency = "" then "USD" else o.currency⟩
      | none => go rest

/-- The per-call session cart store (the session-carts DynamoDB table entry
for one call id), together with fault switches for the read and the write;
a failing read is what the `catch` branch of getSessionCart sees and a
failing write is what the `catch` branch of saveSessionCart sees.  The
updated_at timestamp and the 2-hour TTL of the record are not modelled. -/
structure Store where
  cart : Option (List CartItem)
  readFails : Bool
  writeFails : Bool
deriving Repr, DecidableEq, Inhabited

/-- cart.js getSessionCart: empty list when the call id is falsy, when no
record exists, and also when the DynamoDB read throws (the error is logged
and swallowed). -/
def getSessionCart (store : Store) (callId : String) : List CartItem :=
  if callId = "" then [] else
  if store.readFails then [] else store.cart.getD []

/-- cart.js saveSessionCart: throws when the call id is falsy or when the
DynamoDB put throws; otherwise overwrites the session record. -/
def saveSessionCart (store : Store) (callId : String) (cartItems : List CartItem) :
    Except Unit Store :=
  if callId = "" then .error () else
  if store.writeFails then .error () else
  .ok { store with cart := some cartItems }

/-- The part of a handler response the cart claims talk about: the HTTP
status code (200 success, 400 validation, 404 not-found, 500 internal) and
the message / error string of the JSON body. -/
structure ApiResponse where
  statusCode : Nat
  message : String
deriving Repr, DecidableEq, Inhabited

/-- Run a cart mutation: read the session cart, compute the full new cart in
memory (`plan` either fails with an error response or yields the new cart
and the success message), and only on success perform the single
saveSessionCart write; a throwing write becomes the catch-all 500 response.
This is the shared shape of addToCart, removeFromCart, addModifierToCart and
removeModifierFromCart. -/
def runMutation (store : Store) (callId : String)
    (plan : List CartItem → Except ApiResponse (List CartItem × String)) :
    ApiResponse × Store :=
  match plan (getSessionCart store callId) with
  | .error e => (e, store)
  | .ok (newCart, msg) =>
    match saveSessionCart store callId newCart with
    | .error _ => (⟨500, "Internal server error"⟩, store)
    | .ok store1 => (⟨200, msg⟩, store1)

/-- cart.js convertModifierToSpeech: fixed lookup table from technical
modifier names to natural-language phrases; the fallback lower-cases the
name, strips trailing digits and trims. -/
def stripTrailingDigits (s : String) : String :=
  ⟨(s.data.reverse.dropWhile Char.isDigit).reverse⟩

/-- Convert a technical modifier name to natural speech (cart.js
convertModifierToSpeech), preserving the order of the source checks. -/
def convertModifierToSpeech (modifierName : String) : String :=
  if modifierName = "Original" then "original"
  else if modifierName = "Mild" then "mild"
  else if modifierName = "Medium" then "medium"
  else if modifierName = "Hot" then "hot"
  else if modifierName = "Extra Hot" then "extra hot"
  else if modifierName = "FCK YOU CRA" then "f you cray"
  else if strContains modifierName "Add cheese" then "with cheese"
  else if strContains modifierName "No cheese" then "no cheese"
  else if strContains modifierName "No Pickles" then "no pickles"
  else if strContains modifierName "No Slaw" then "no slaw"
  else if strContains modifierName "No Big Bird Sauce" then "no sauce"
  else if modifierName = "Add tender" then "with extra tender"
  else if modifierName = "Pickles on the side" then "pickles on the side"
  else if modifierName = "Slaw on the side" then "slaw on the side"
  else if modifierName = "Chicken & Bun Only" then "chicken and bun only"
  else if modifierName = "Substitute fries with mac & cheese" then "substitute fries with mac and cheese"
  else if modifierName = "Substitute fries with slaw" then "substitute fries with slaw"
  else if strContains modifierName "Substitute Slaw with Lettuce" then "substitute slaw with lettuce"
  else jsTrim (stripTrailingDigits (lowerStr modifierName))

/-- cart.js createModifierDescription: group applied modifiers into first
sandwich (stored option name ending in " 1"), second sandwich (" 2") and
whole-item buckets, and render the " - ..." clause. -/
def createModifierDescription (modifiers : List AppliedModifier) : String :=
  if modifiers = [] then "" else
  let piece1 := (modifiers.filter (fun m => endsWithStr m.optionName " 1")).map
    (fun m => convertModifierToSpeech m.optionName)
  let piece2 := (modifiers.filter
      (fun m => !endsWithStr m.optionName " 1" && endsWithStr m.optionName " 2")).map
    (fun m => convertModifierToSpeech m.optionName)
  let whole := (modifiers.filter
      (fun m => !endsWithStr m.optionName " 1" && !endsWithStr m.optionName " 2")).map
    (fun m => convertModifierToSpeech m.optionName)
  let descriptions :=
    (if piece1 ≠ [] then ["first sandwich " ++ joinSep " " piece1] else []) ++
    (if piece2 ≠ [] then ["second sandwich " ++ joinSep " " piece2] else []) ++
    whole
  if descriptions ≠ [] then " - " ++ joinSep ", " descriptions else ""

/-- Is this character a regex word character (for the word boundary in the
`(\d+)pc` presentation substitution)? -/
def isWordChar (c : Char) : Bool := c.isAlphanum || c = '_'

/-- Scanner for the JS `replace(/(\d+)pc\b/g, "$1 piece")` presentation
substitution: `pending` holds the reversed digit run read so far; the fuel
argument starts at the length of the scanned list, of which every step
consumes at least one character, so the fuel never runs out. -/
def replacePcFuel : Nat → List Char → List Char → List Char
  | 0, pending, l => pending.reverse ++ l
  | _ + 1, pending, [] => pending.reverse
  | fuel + 1, pending, c :: rest =>
    if c.isDigit then replacePcFuel fuel (c :: pending) rest
    else if pending ≠ [] && c = 'p' then
      match rest with
      | 'c' :: rest2 =>
        if (match rest2 with | [] => true | d :: _ => !isWordChar d) then
          pending.reverse ++ (" piece".data) ++ replacePcFuel fuel [] rest2
        else pending.reverse ++ ['p', 'c'] ++ replacePcFuel fuel [] rest2
      | _ => pending.reverse ++ [c] ++ replacePcFuel fuel [] rest
    else pending.reverse ++ [c] ++ replacePcFuel fuel [] rest

/-- JS `replace(/(\d+)pc\b/g, "$1 piece")` (2pc becomes 2 piece). -/
def replacePc (s : String) : String := ⟨replacePcFuel s.data.length [] s.data⟩

/-- Global non-overlapping literal replacement (JS `replace(/pat/g, rep)` for
a literal pattern); the fuel argument is the length of the scanned list, which
each step consumes at least one character of, so the fuel never runs out. -/
def replaceSubFuel (pat rep : List Char) : Nat → List Char → List Char
  | 0, l => l
  | _ + 1, [] => []
  | fuel + 1, c :: rest =>
    if pat ≠ [] && leadsWith pat (c :: rest) then
      rep ++ replaceSubFuel pat rep fuel ((c :: rest).drop pat.length)
    else c :: replaceSubFuel pat rep fuel rest

/-- Global literal replacement on strings. -/
def replaceSub (s pat rep : String) : String :=
  ⟨replaceSubFuel pat.data rep.data s.data.length s.data⟩

/-- JS `Number.prototype.toFixed(2)` on a dollar amount (round half away from
zero to two decimals). -/
def formatFixed2 (q : ℚ) : String :=
  let neg := q < 0
  let a := if neg then -q else q
  let cents : Int := ⌊a * 100 + 1 / 2⌋
  let whole := cents / 100
  let fr := cents % 100
  (if neg then "-" else "") ++ toString whole ++ "." ++
    (if fr < 10 then "0" else "") ++ toString fr

/-- Render a JS number (here always a non-negative integer quantity) for the
message strings. -/
def ratStr (q : ℚ) : String :=
  if q.den = 1 then toString q.num else toString q.num ++ "/" ++ toString q.den

/-- cart.js createSpeechFriendlySummary: "Your cart is empty." for an empty
cart, otherwise one clause per line item (quantity, presentation-substituted
name, modifier clause) joined by commas plus the total sentence. -/
def createSpeechFriendlySummary (sessionCart : List CartItem) (subtotal : ℚ) : String :=
  if sessionCart = [] then "Your cart is empty." else
  let speechItems := sessionCart.map (fun item =>
    let itemName0 := if item.item_name ≠ "" then item.item_name
      else if item.name ≠ "" then item.name else "Unknown Item"
    let itemName1 := if upperStr itemName0 = "SODA" && item.specialInstructions ≠ "" then
        item.specialInstructions else itemName0
    let itemName2 := replaceSub (replacePc itemName1) "FCK YOU CRA" "F.C.K."
    let quantity := if item.quantity = 0 then 1 else item.quantity
    ratStr quantity ++ " " ++ itemName2 ++ createModifierDescription item.modifiers)
  joinSep ", " speechItems ++ ". Your total is $" ++ formatFixed2 subtotal ++ " plus tax"

/-- The cart-entry name match used by addModifierToCart and
removeModifierFromCart (`item_name === itemName || name === itemName`). -/
def matchesName (it : CartItem) (n : String) : Bool := it.item_name = n || it.name = n

/-- The reverse for-loop of addModifierToCart / removeModifierFromCart: index
of the most recently added (greatest-index) cart entry whose name matches. -/
def lastMatchIdx (n : String) : List CartItem → Option Nat
  | [] => none
  | it :: rest =>
    match lastMatchIdx n rest with
    | some j => some (j + 1)
    | none => if matchesName it n then some 0 else none

/-- The merge check of addToCart: same itemId, same special instructions and
the same multiset of applied modifier option ids (compared, as in the source,
by sorting the id arrays). -/
def mergeableB (item cand : CartItem) : Bool :=
  item.itemId = cand.itemId && item.specialInstructions = cand.specialInstructions &&
  item.modifiers.length = cand.modifiers.length &&
  sortStrings (item.modifiers.map (fun m => m.optionId)) =
    sortStrings (cand.modifiers.map (fun m => m.optionId))

/-- Sum of applied modifier prices (the `reduce((sum, mod) => sum +
(mod.price || 0), 0)` of the source). -/
def modifierSum (mods : List AppliedModifier) : ℚ :=
  mods.foldl (fun s m => s + m.price) 0

/-- The candidate cart line item addToCart builds from the resolved menu item
before the merge check: base fields from the menu, auto-applied first/second
spice level modifiers, and the line total recomputed with the modifier
prices. -/
def buildCartItem (menuItem : MenuItem) (n : String) (qty : ℚ) (instr : String)
    (firstItemSpiceLevel secondItemSpiceLevel : Option String) : CartItem :=
  let is2PcItem := strContains n "(2pc)"
  let unitPrice : ℚ := (menuItem.price : ℚ) / 100
  let firstMod := if jsTruthy firstItemSpiceLevel then
      findSpiceLevelModifier menuItem (firstItemSpiceLevel.getD "") true is2PcItem
    else none
  let secondMod := if jsTruthy secondItemSpiceLevel then
      (if is2PcItem then
        findSpiceLevelModifier menuItem (secondItemSpiceLevel.getD "") false is2PcItem
      else none)
    else none
  let mods := firstMod.toList ++ secondMod.toList
  { variation_id := menuItem.variation_id, item_name := n, price := menuItem.price,
    currency := menuItem.currency, description := menuItem.description,
    quantity := qty, specialInstructions := instr, unitPrice := unitPrice,
    lineTotal := (unitPrice + modifierSum mods) * qty, modifiers := mods,
    itemId := menuItem.variation_id, name := n }

/-- The modifier application loop of addModifierToCart: walk the resolved
modifiers in order, skipping any whose optionId is already applied, and
append the new ones; returns (new modifier list, added, skipped names). -/
def applyMods : List AppliedModifier → List AppliedModifier →
    List AppliedModifier × List AppliedModifier × List String
  | cur, [] => (cur, [], [])
  | cur, m :: rest =>
    if cur.any (fun x => x.optionId = m.optionId) then
      let (c, a, s) := applyMods cur rest
      (c, a, m.optionName :: s)
    else
      let (c, a, s) := applyMods (cur ++ [m]) rest
      (c, m :: a, s)

/-- The removal match of removeModifierFromCart: trimmed option name equality
plus, for 2PC items, the piece category restriction. -/
def modMatches (scope : Option String) (nm : String) (mod : AppliedModifier) : Bool :=
  jsTrim mod.optionName = jsTrim nm &&
  (match scope with | some c => mod.category = c | none => true)

/-- The modifier removal loop of removeModifierFromCart: for each requested
name splice out the first matching applied modifier (within the piece scope);
returns (remaining modifiers, removed modifiers, failed names). -/
def removeMods (scope : Option String) :
    List AppliedModifier → List String → List AppliedModifier × List AppliedModifier × List String
  | cur, [] => (cur, [], [])
  | cur, nm :: rest =>
    match cur.findIdx? (fun mod => modMatches scope nm mod) with
    | some j =>
      let m := cur.getD j default
      let (c, r, f) := removeMods scope (cur.eraseIdx j) rest
      (c, m :: r, f)
    | none =>
      let (c, r, f) := removeMods scope cur rest
      (c, r, nm :: f)

/-- The in-memory part of cart.js addToCart after the location and menu
lookups: validate the arguments (a falsy quantity, 0 included, defaults to
1), resolve the menu item, build the candidate line item with auto-applied
spice modifiers, and either merge into the first mergeable existing entry
(summing quantities and recomputing the line total) or append. -/
def addToCartPlan (menu : Menu) (restaurantName locationId : String)
    (itemName : Option String) (quantity : Option ℚ) (specialInstructions : Option String)
    (firstItemSpiceLevel secondItemSpiceLevel : Option String)
    (sessionCart : List CartItem) : Except ApiResponse (List CartItem × String) :=
  let qty : ℚ := match quantity with | none => 1 | some q => if q = 0 then 1 else q
  let instr := specialInstructions.getD ""
  if !jsTruthy itemName then .error ⟨400, "Missing required field: itemName"⟩ else
  let n := itemName.getD ""
  if qty ≤ 0 ∨ qty.den ≠ 1 then .error ⟨400, "Quantity must be a positive integer"⟩ else
  match menuLookup menu n with
  | none => .error ⟨404, "Item \"" ++ n ++ "\" not found in " ++ restaurantName ++ " " ++
      locationId ++ " menu"⟩
  | some menuItem =>
    let cartItem := buildCartItem menuItem n qty instr firstItemSpiceLevel secondItemSpiceLevel
    let successMsg := "Added " ++ ratStr qty ++ " " ++ n ++ " to cart for " ++
      restaurantName ++ " " ++ locationId
    match sessionCart.findIdx? (fun item => mergeableB item cartItem) with
    | some i =>
      let old := sessionCart.getD i default
      let newQty := old.quantity + qty
      let updated := { old with
        quantity := newQty
        lineTotal := (old.unitPrice + modifierSum old.modifiers) * newQty }
      .ok (sessionCart.set i updated, successMsg)
    | none => .ok (sessionCart ++ [cartItem], successMsg)

/-- cart.js addToCart: call id guard, then the in-memory plan, then the
single persisting write. -/
def addToCart (menu : Menu) (restaurantName locationId : String) (store : Store)
    (callId : String) (itemName : Option String) (quantity : Option ℚ)
    (specialInstructions : Option String)
    (firstItemSpiceLevel secondItemSpiceLevel : Option String) : ApiResponse × Store :=
  if callId = "" then (⟨400, "Missing call ID in request"⟩, store)
  else runMutation store callId (addToCartPlan menu restaurantName locationId itemName
    quantity specialInstructions firstItemSpiceLevel secondItemSpiceLevel)

/-- The in-memory part of cart.js removeFromCart: bidirectional
case-insensitive substring match scanning forward, a falsy quantityToRemove
(0 included) defaults to the full current quantity, and a quantity-only
decrement recomputes the line total as unitPrice * quantity (the modifier
prices are dropped at this point in the source). -/
def removeFromCartPlan (itemName : Option String) (quantityToRemove : Option ℚ)
    (sessionCart : List CartItem) : Except ApiResponse (List CartItem × String) :=
  if !jsTruthy itemName then .error ⟨400, "Missing required field: itemName"⟩ else
  let n := itemName.getD ""
  if sessionCart = [] then .error ⟨400, "Cart is empty"⟩ else
  match sessionCart.findIdx? (fun item =>
      strContains (lowerStr item.name) (lowerStr n) ||
      strContains (lowerStr n) (lowerStr item.name)) with
  | none => .error ⟨404, "Item \"" ++ n ++ "\" not found in cart"⟩
  | some i =>
    let cartItem := sessionCart.getD i default
    let removeQty := match quantityToRemove with
      | none => cartItem.quantity
      | some q => if q = 0 then cartItem.quantity else q
    let successMsg := "Removed " ++ ratStr removeQty ++ " " ++ cartItem.name ++ " from cart"
    if cartItem.quantity ≤ removeQty then
      .ok (sessionCart.eraseIdx i, successMsg)
    else
      .ok (sessionCart.set i { cartItem with
          quantity := cartItem.quantity - removeQty
          lineTotal := cartItem.unitPrice * (cartItem.quantity - removeQty) }, successMsg)

/-- cart.js removeFromCart: call id guard, in-memory plan, single write. -/
def removeFromCart (store : Store) (callId : String) (itemName : Option String)
    (quantityToRemove : Option ℚ) : ApiResponse × Store :=
  if callId = "" then (⟨400, "Missing call ID in request"⟩, store)
  else runMutation store callId (removeFromCartPlan itemName quantityToRemove)

/-- cart.js getCartSummary: the empty-cart branch answers with the literal
"Your cart is empty" (no period) before any total is computed; otherwise the
subtotal is the sum of the line totals and the message is the speech summary
(the item count is computed by the source but not returned).  No write is
performed. -/
def getCartSummary (store : Store) (callId : String) : ApiResponse × Store :=
  if callId = "" then (⟨400, "Missing call ID in request"⟩, store) else
  let sessionCart := getSessionCart store callId
  if sessionCart = [] then (⟨200, "Your cart is empty"⟩, store) else
  let subtotal := sessionCart.foldl (fun s item => s + item.lineTotal) 0
  (⟨200, createSpeechFriendlySummary sessionCart subtotal⟩, store)

/-- The lower-cased cart item names upsell inspects
(`(item.item_name || item.name || "").toLowerCase()`). -/
def upsellCartNames (sessionCart : List CartItem) : List String :=
  sessionCart.map (fun item =>
    lowerStr (if item.item_name ≠ "" then item.item_name
      else if item.name ≠ "" then item.name else ""))

/-- cart.js upsell: check the cart item names for the tracked categories and
build the offer; the dessert clause is only ever appended to a non-empty
parts list, and with an empty parts list the whole message is the empty
string.  No write is performed. -/
def upsell (store : Store) (callId : String) : ApiResponse × Store :=
  if callId = "" then (⟨400, "Missing call ID in request"⟩, store) else
  let cartItemNames := upsellCartNames (getSessionCart store callId)
  let hasFries := cartItemNames.any (fun s => strContains s "fries")
  let hasMac := cartItemNames.any (fun s => strContains s "mac")
  let hasSlaw := cartItemNames.any (fun s => strContains s "slaw")
  let hasToffee := cartItemNames.any (fun s => strContains s "toffee")
  let parts := (if !hasFries then ["regular fries, cheese fries"] else []) ++
    (if !hasMac then ["mac & cheese"] else []) ++
    (if !hasSlaw then ["slaw"] else [])
  let dessertPart := if !hasToffee then ", we also have toffee cake for dessert" else ""
  let message :=
    if parts = [] then ""
    else if parts.length = 1 then
      "Before I confirm, would you like to add " ++ parts.headD "" ++ dessertPart ++ "?"
    else
      "Before I confirm, would you like to add " ++ joinSep ", " parts.dropLast ++
        ", or " ++ parts.getLastD "" ++ dessertPart ++ "?"
  (⟨200, message⟩, store)

/-- First-piece modifier resolution of addModifierToCart: scoped to the
first sandwich category for 2PC items, searched across all categories
otherwise. -/
def resolveFirstMod (menuItem : MenuItem) (n m : String) : Option AppliedModifier :=
  if strContains n "(2pc)" then
    findModifierInCategory menuItem m "Choose Your First Sandwich Mods"
  else findModifierAnyCategory menuItem m

/-- Second-piece modifier resolution of addModifierToCart (only consulted for
2PC items): scoped to the second sandwich category. -/
def resolveSecondMod (menuItem : MenuItem) (m : String) : Option AppliedModifier :=
  findModifierInCategory menuItem m "Choose Your Second Sandwich Mods"

/-- The modifiers the addModifierToCart resolution loops collect, in request
order: the resolved first-piece names followed, for 2PC items, by the
resolved second-piece names (unresolved names are only reported back as
failed and are dropped here). -/
def resolvedModsOf (menuItem : MenuItem) (n : String)
    (firstSandwichMods secondSandwichMods : List String) : List AppliedModifier :=
  firstSandwichMods.filterMap (resolveFirstMod menuItem n) ++
    (if strContains n "(2pc)" then
      secondSandwichMods.filterMap (resolveSecondMod menuItem)
    else [])

/-- The in-memory part of cart.js addModifierToCart: validate, resolve every
requested modifier against the menu, reject when nothing resolved, target
the most recent matching cart entry, apply the non-duplicate modifiers and
recompute the line total once.  The failed-modifier names are only reported
in the response metadata and are not modelled. -/
def addModifierToCartPlan (menu : Menu) (itemName : Option String)
    (firstSandwichMods secondSandwichMods : List String)
    (sessionCart : List CartItem) : Except ApiResponse (List CartItem × String) :=
  if !jsTruthy itemName then .error ⟨400, "Missing required field: itemName"⟩ else
  let n := itemName.getD ""
  if firstSandwichMods = [] ∧ secondSandwichMods = [] then
    .error ⟨400, "At least one modifier array (firstSandwichMods or secondSandwichMods) must contain modifiers"⟩ else
  match menuLookup menu n with
  | none => .error ⟨404, "Item \"" ++ n ++ "\" not found in menu"⟩
  | some menuItem =>
    let modifiersToApply := resolvedModsOf menuItem n firstSandwichMods secondSandwichMods
    if modifiersToApply = [] then
      .error ⟨404, "No valid modifiers found for \"" ++ n ++ "\""⟩ else
    match lastMatchIdx n sessionCart with
    | none => .error ⟨404, "No \"" ++ n ++ "\" found in cart to modify. Add the item first."⟩
    | some i =>
      let cartItem := sessionCart.getD i default
      let (newMods, added, skipped) := applyMods cartItem.modifiers modifiersToApply
      if added = [] then
        .error ⟨400, "All modifiers already applied to this item: " ++ joinSep ", " skipped⟩ else
      let updated := { cartItem with
        modifiers := newMods
        lineTotal := (cartItem.unitPrice + modifierSum newMods) * cartItem.quantity }
      let addedNames := added.map (fun m => m.optionName)
      let totalRequested := firstSandwichMods.length + secondSandwichMods.length
      let message :=
        if addedNames.length = 1 then "Added \"" ++ addedNames.headD "" ++ "\" to " ++ n
        else if addedNames.length = totalRequested then
          "Added " ++ toString addedNames.length ++ " modifiers to " ++ n ++ ": " ++
            joinSep ", " addedNames
        else
          "Added " ++ toString addedNames.length ++ " of " ++ toString totalRequested ++
            " modifiers to " ++ n ++ ": " ++ joinSep ", " addedNames
      .ok (sessionCart.set i updated, message)

/-- cart.js addModifierToCart: call id guard, in-memory plan, single write. -/
def addModifierToCart (menu : Menu) (store : Store) (callId : String)
    (itemName : Option String) (firstSandwichMods secondSandwichMods : List String) :
    ApiResponse × Store :=
  if callId = "" then (⟨400, "Missing call ID in request"⟩, store)
  else runMutation store callId
    (addModifierToCartPlan menu itemName firstSandwichMods secondSandwichMods)

/-- The in-memory part of cart.js removeModifierFromCart: validate, reject an
empty cart, target the most recent matching entry, reject an entry without
modifiers, then splice out the first- and second-piece requests (scoped to
the sandwich-mod categories for 2PC items) and recompute the line total.
The failed-modifier names are only reported in the response metadata and are
not modelled. -/
def removeModifierFromCartPlan (itemName : Option String)
    (firstSandwichMods secondSandwichMods : List String)
    (sessionCart : List CartItem) : Except ApiResponse (List CartItem × String) :=
  if !jsTruthy itemName then .error ⟨400, "Missing required field: itemName"⟩ else
  let n := itemName.getD ""
  if firstSandwichMods = [] ∧ secondSandwichMods = [] then
    .error ⟨400, "At least one modifier array (firstSandwichMods or secondSandwichMods) must contain modifiers to remove"⟩ else
  if sessionCart = [] then .error ⟨400, "Cart is empty"⟩ else
  match lastMatchIdx n sessionCart with
  | none => .error ⟨404, "No \"" ++ n ++ "\" found in cart to modify"⟩
  | some i =>
    let cartItem := sessionCart.getD i default
    if cartItem.modifiers = [] then .error ⟨404, "No modifiers found on \"" ++ n ++ "\""⟩ else
    let is2PcItem := strContains n "(2pc)"
    let firstScope := if is2PcItem then some "Choose Your First Sandwich Mods" else none
    let resFirst := removeMods firstScope cartItem.modifiers firstSandwichMods
    let resSecond := if is2PcItem then
        removeMods (some "Choose Your Second Sandwich Mods") resFirst.1 secondSandwichMods
      else (resFirst.1, [], secondSandwichMods)
    let removed := resFirst.2.1 ++ resSecond.2.1
    if removed = [] then .error ⟨404, "No specified modifiers found on \"" ++ n ++ "\""⟩ else
    let updated := { cartItem with
      modifiers := resSecond.1
      lineTotal := (cartItem.unitPrice + modifierSum resSecond.1) * cartItem.quantity }
    let removedNames := removed.map (fun m => m.optionName)
    let totalRequested := firstSandwichMods.length + secondSandwichMods.length
    let message :=
      if removedNames.length = 1 then "Removed \"" ++ removedNames.headD "" ++ "\" from " ++ n
      else if removedNames.length = totalRequested then
        "Removed " ++ toString removedNames.length ++ " modifiers from " ++ n ++ ": " ++
          joinSep ", " removedNames
      else
        "Removed " ++ toString removedNames.length ++ " of " ++ toString totalRequested ++
          " modifiers from " ++ n ++ ": " ++ joinSep ", " removedNames
    .ok (sessionCart.set i updated, message)

/-- cart.js removeModifierFromCart: call id guard, in-memory plan, single
write. -/
def removeModifierFromCart (store : Store) (callId : String) (itemName : Option String)
    (firstSandwichMods secondSandwichMods : List String) : ApiResponse × Store :=
  if callId = "" then (⟨400, "Missing call ID in request"⟩, store)
  else runMutation store callId
    (removeModifierFromCartPlan itemName firstSandwichMods secondSandwichMods)

/-- The line-total invariant of the specification: lineTotal equals
(unitPrice + sum of applied modifier prices) * quantity. -/
def lineTotalInvariant (it : CartItem) : Prop :=
  it.lineTotal = (it.unitPrice + modifierSum it.modifiers) * it.quantity

/-! Shared lemmas about the mutation wrapper. -/

theorem runMutation_of_error (store : Store) (callId : String)
    (plan : List CartItem → Except ApiResponse (List CartItem × String)) (e : ApiResponse)
    (h : plan (getSessionCart store callId) = .error e) :
    runMutation store callId plan = (e, store) := by
  simp [runMutation, h]

theorem runMutation_of_ok (store : Store) (callId : String)
    (plan : List CartItem → Except ApiResponse (List CartItem × String))
    (nc : List CartItem) (msg : String)
    (h : plan (getSessionCart store callId) = .ok (nc, msg))
    (hc : callId ≠ "") (hw : store.writeFails = false) :
    runMutation store callId plan = (⟨200, msg⟩, { store with cart := some nc }) := by
  simp [runMutation, h, saveSessionCart, hc, hw]

theorem runMutation_ne200_store (store : Store) (callId : String)
    (plan : List CartItem → Except ApiResponse (List CartItem × String))
    (h : (runMutation store callId plan).1.statusCode ≠ 200) :
    (runMutation store callId plan).2 = store := by
  rcases hp : plan (getSessionCart store callId) with e | pr
  · simp [runMutation, hp]
  · obtain ⟨nc, m⟩ := pr
    rcases hs : saveSessionCart store callId nc with u | s1
    · simp [runMutation, hp, hs]
    · exact absurd (by simp [runMutation, hp, hs]) h

theorem runMutation_success_shape (store : Store) (callId : String)
    (plan : List CartItem → Except ApiResponse (List CartItem × String))
    (hplan : ∀ e, plan (getSessionCart store callId) = .error e → e.statusCode ≠ 200)
    (h : (runMutation store callId plan).1.statusCode = 200) :
    ∃ nc msg, plan (getSessionCart store callId) = .ok (nc, msg) ∧
      (runMutation store callId plan).2 = { store with cart := some nc } := by
  rcases hp : plan (getSessionCart store callId) with e | pr
  · exact absurd (by simpa [runMutation, hp] using h) (hplan e hp)
  · obtain ⟨nc, m⟩ := pr
    rcases hs : saveSessionCart store callId nc with u | s1
    · exfalso
      simp [runMutation, hp, hs] at h
    · refine ⟨nc, m, rfl, ?_⟩
      have : s1 = { store with cart := some nc } := by
        unfold saveSessionCart at hs
        split at hs
        · cases hs
        · split at hs
          · cases hs
          · cases hs; rfl
      simp [runMutation, hp, hs, this]

/-- Fixture: an "Add cheese" surcharge modifier worth one dollar. -/
def modCheeseFix : AppliedModifier := ⟨"Extras", "mc", "Add cheese", 1, "USD"⟩

/-- Fixture: a cart line item with one priced modifier whose line total
satisfies the pricing invariant: (8.99 + 1.00) * 2 = 19.98. -/
def sandwichWithCheeseFix : CartItem :=
  ⟨"VS", "Sandwich", 899, "USD", "", 2, "", (899 : ℚ)/100, ((899 : ℚ)/100 + 1) * 2,
    [modCheeseFix], "VS", "Sandwich"⟩

/-- Fixture: the line item the buggy decrement path of removeFromCart
produces from `sandwichWithCheeseFix`: quantity 1 but line total 8.99,
the one-dollar cheese surcharge having been dropped. -/
def sandwichAfterBuggyRemoveFix : CartItem :=
  { sandwichWithCheeseFix with quantity := 1, lineTotal := (899 : ℚ)/100 }

/-- Claim C1: the line-total invariant `lineTotal = (unitPrice + sum of
modifier prices) * quantity` is NOT preserved by a removeFromCart call that
only decrements the quantity of a line item with a priced modifier: on a
cart holding 2 Sandwiches at 8.99 with a 1.00 cheese modifier (line total
19.98), removing 1 leaves quantity 1 with line total 8.99 instead of the
9.99 the invariant demands — the decrement path recomputes the total as
unitPrice * quantity, dropping the modifier prices. -/
theorem removeFromCart_decrement_breaks_lineTotal_invariant :
    (removeFromCart ⟨some [sandwichWithCheeseFix], false, false⟩ "c"
        (some "Sandwich") (some 1)).2.cart = some [sandwichAfterBuggyRemoveFix] ∧
    lineTotalInvariant sandwichWithCheeseFix ∧
    ¬ lineTotalInvariant sandwichAfterBuggyRemoveFix := by
  refine ⟨?_, ?_, ?_⟩
  · simp [removeFromCart, runMutation, removeFromCartPlan, getSessionCart, saveSessionCart,
      jsTruthy, sandwichWithCheeseFix, sandwichAfterBuggyRemoveFix, modCheeseFix,
      strContains, lowerStr, subOccurs, leadsWith]
    norm_num
  · simp [lineTotalInvariant, sandwichWithCheeseFix, modCheeseFix, modifierSum]
  · simp [lineTotalInvariant, sandwichAfterBuggyRemoveFix, sandwichWithCheeseFix,
      modCheeseFix, modifierSum]

/-- Claim C5 counterexample: on an empty session cart, getCartSummary answers
with the literal "Your cart is empty" WITHOUT the trailing period, so the
speech string is not exactly "Your cart is empty." as claimed (the
period-terminated variant lives in createSpeechFriendlySummary, which the
empty-cart branch of getCartSummary never calls). -/
theorem getCartSummary_empty_no_period :
    (getCartSummary ⟨some [], false, false⟩ "c").1 = ⟨200, "Your cart is empty"⟩ ∧
    (getCartSummary ⟨some [], false, false⟩ "c").1.message ≠ "Your cart is empty." ∧
    createSpeechFriendlySummary [] 0 = "Your cart is empty." := by
  refine ⟨by decide, by decide, by decide⟩

/-- Claim C5 (amended): for every session whose stored cart reads back empty,
getCartSummary answers 200 with the speech string exactly "Your cart is
empty" (no trailing period), computes no subtotal, and leaves the store
untouched. -/
theorem getCartSummary_empty_cart (store : Store) (callId : String)
    (hc : callId ≠ "") (hcart : getSessionCart store callId = []) :
    getCartSummary store callId = (⟨200, "Your cart is empty"⟩, store) := by
  simp [getCartSummary, hc, hcart]

/-- Witness for the amended C5 theorem at a concrete store. -/
theorem getCartSummary_empty_cart_witness :
    getCartSummary ⟨none, false, false⟩ "call1" =
      (⟨200, "Your cart is empty"⟩, ⟨none, false, false⟩) :=
  getCartSummary_empty_cart ⟨none, false, false⟩ "call1" (by decide) (by decide)

/-- Fixture: a plain cart line item carrying a given name. -/
def namedItemFix (nm : String) : CartItem :=
  ⟨"V", nm, 100, "USD", "", 1, "", 1, 1, [], "V", nm⟩

/-- Fixture: a cart containing fries, mac and slaw items but no toffee cake. -/
def friesMacSlawCartFix : List CartItem :=
  [namedItemFix "Seasoned Fries", namedItemFix "Mac & Cheese", namedItemFix "Cole Slaw"]

/-- Claim C6 counterexample: on a cart that contains fries, mac and slaw but
no toffee cake (so exactly one of the four tracked categories, the dessert,
is absent), upsell returns the empty string instead of a non-empty offer
mentioning the dessert, and hence also falsifies the only-if direction of
"empty iff all four present". -/
theorem upsell_empty_with_dessert_absent :
    (upsell ⟨some friesMacSlawCartFix, false, false⟩ "c").1.message = "" ∧
    (upsellCartNames friesMacSlawCartFix).any (fun s => strContains s "toffee") = false := by
  refine ⟨by decide, by decide⟩

/-- Claim C6 (amended): upsell returns the empty string if and only if the
cart item names already contain fries, mac and slaw (the three non-dessert
categories) — the dessert is NOT consulted for emptiness, because the
toffee-cake clause is only appended to a non-empty side-offer list; and
whenever the returned offer is non-empty and toffee cake is absent from the
cart, the offer does mention the toffee cake dessert. -/
theorem upsell_offer_empty_iff (store : Store) (callId : String) (hc : callId ≠ "") :
    ((upsell store callId).1.message = "" ↔
      ((upsellCartNames (getSessionCart store callId)).any
          (fun s => strContains s "fries") = true ∧
       (upsellCartNames (getSessionCart store callId)).any
          (fun s => strContains s "mac") = true ∧
       (upsellCartNames (getSessionCart store callId)).any
          (fun s => strContains s "slaw") = true)) ∧
    ((upsellCartNames (getSessionCart store callId)).any
        (fun s => strContains s "toffee") = false →
      (upsell store callId).1.message ≠ "" →
      strContains (upsell store callId).1.message "toffee cake" = true) := by
  cases hF : (upsellCartNames (getSessionCart store callId)).any (fun s => strContains s "fries") <;>
  cases hM : (upsellCartNames (getSessionCart store callId)).any (fun s => strContains s "mac") <;>
  cases hS : (upsellCartNames (getSessionCart store callId)).any (fun s => strContains s "slaw") <;>
  cases hT : (upsellCartNames (getSessionCart store callId)).any (fun s => strContains s "toffee") <;>
    simp [upsell, hc, hF, hM, hS, hT, joinSep] <;> decide

/-- Witness for the amended C6 theorem at a concrete store (empty cart: all
three side categories absent, so the offer is non-empty and, toffee being
absent too, mentions the dessert). -/
theorem upsell_offer_empty_iff_witness :
    (((upsell ⟨some [], false, false⟩ "c2").1.message = "" ↔
      ((upsellCartNames (getSessionCart ⟨some [], false, false⟩ "c2")).any
          (fun s => strContains s "fries") = true ∧
       (upsellCartNames (getSessionCart ⟨some [], false, false⟩ "c2")).any
          (fun s => strContains s "mac") = true ∧
       (upsellCartNames (getSessionCart ⟨some [], false, false⟩ "c2")).any
          (fun s => strContains s "slaw") = true)) ∧
    ((upsellCartNames (getSessionCart ⟨some [], false, false⟩ "c2")).any
        (fun s => strContains s "toffee") = false →
      (upsell ⟨some [], false, false⟩ "c2").1.message ≠ "" →
      strContains (upsell ⟨some [], false, false⟩ "c2").1.message "toffee cake" = true)) :=
  upsell_offer_empty_iff ⟨some [], false, false⟩ "c2" (by decide)

/-! Error responses of the in-memory plans always carry a 400 or 404 status. -/

theorem addToCartPlan_error_code (menu : Menu) (rn li : String) (itn : Option String)
    (q : Option ℚ) (si f s : Option String) (cart : List CartItem) (e : ApiResponse)
    (h : addToCartPlan menu rn li itn q si f s cart = .error e) :
    e.statusCode = 400 ∨ e.statusCode = 404 := by
  simp only [addToCartPlan] at h
  repeat' split at h
  all_goals first | (cases h; simp) | simp_all

theorem removeFromCartPlan_error_code (itn : Option String) (q : Option ℚ)
    (cart : List CartItem) (e : ApiResponse)
    (h : removeFromCartPlan itn q cart = .error e) :
    e.statusCode = 400 ∨ e.statusCode = 404 := by
  simp only [removeFromCartPlan] at h
  repeat' split at h
  all_goals first | (cases h; simp) | simp_all

set_option maxHeartbeats 1000000 in
theorem addModifierToCartPlan_error_code (menu : Menu) (itn : Option String)
    (fm sm : List String) (cart : List CartItem) (e : ApiResponse)
    (h : addModifierToCartPlan menu itn fm sm cart = .error e) :
    e.statusCode = 400 ∨ e.statusCode = 404 := by
  simp only [addModifierToCartPlan] at h
  repeat' split at h
  all_goals first | (cases h; simp) | simp_all

set_option maxHeartbeats 1000000 in
theorem removeModifierFromCartPlan_error_code (itn : Option String)
    (fm sm : List String) (cart : List CartItem) (e : ApiResponse)
    (h : removeModifierFromCartPlan itn fm sm cart = .error e) :
    e.statusCode = 400 ∨ e.statusCode = 404 := by
  simp only [removeModifierFromCartPlan] at h
  repeat' split at h
  all_goals first | (cases h; simp) | simp_all

/-! The reverse scan of addModifierToCart / removeModifierFromCart picks the
greatest matching index. -/

theorem lastMatchIdx_cons (n : String) (it : CartItem) (rest : List CartItem) :
    lastMatchIdx n (it :: rest) =
      match lastMatchIdx n rest with
      | some j => some (j + 1)
      | none => if matchesName it n then some 0 else none := rfl

theorem lastMatchIdx_none (n : String) (cart : List CartItem)
    (h : lastMatchIdx n cart = none) :
    ∀ j, j < cart.length → matchesName (cart.getD j default) n = false := by
  induction cart with
  | nil => intro j hj; simp at hj
  | cons it rest ih =>
    rw [lastMatchIdx_cons] at h
    rcases hr : lastMatchIdx n rest with _ | j0
    · rw [hr] at h
      cases hmm : matchesName it n
      · intro j hj
        cases j with
        | zero => simpa [List.getD_cons_zero] using hmm
        | succ j1 => exact (by simpa [List.getD_cons_succ] using ih hr j1 (by simpa using hj))
      · rw [hmm] at h; simp at h
    · rw [hr] at h; cases h

theorem lastMatchIdx_spec (n : String) (cart : List CartItem) (i : Nat)
    (h : lastMatchIdx n cart = some i) :
    i < cart.length ∧ matchesName (cart.getD i default) n = true ∧
      ∀ j, i < j → j < cart.length → matchesName (cart.getD j default) n = false := by
  induction cart generalizing i with
  | nil => cases h
  | cons it rest ih =>
    rw [lastMatchIdx_cons] at h
    rcases hr : lastMatchIdx n rest with _ | j0
    · rw [hr] at h
      cases hmm : matchesName it n
      · rw [hmm] at h; simp at h
      · rw [hmm] at h
        simp only [if_true, Option.some.injEq] at h
        subst h
        refine ⟨by simp, by simpa [List.getD_cons_zero] using hmm, ?_⟩
        intro j hj hjl
        cases j with
        | zero => omega
        | succ j1 =>
          simpa [List.getD_cons_succ] using
            lastMatchIdx_none n rest hr j1 (by simpa using hjl)
    · rw [hr] at h
      simp only [Option.some.injEq] at h
      subst h
      obtain ⟨hl, hm, hrest⟩ := ih j0 hr
      refine ⟨by simpa using Nat.succ_lt_succ hl,
        by simpa [List.getD_cons_succ] using hm, ?_⟩
      intro j hj hjl
      cases j with
      | zero => omega
      | succ j1 =>
        simpa [List.getD_cons_succ] using hrest j1 (by omega) (by simpa using hjl)

/-- Claim C3: whenever a cart operation answers with an error (any non-200
status: validation failure, not-found, or a failing write), the stored cart
for the session is exactly what it was before the call — the single
persisting write happens only after the whole in-memory mutation succeeded;
getCartSummary and upsell never write at all. -/
theorem cart_ops_error_leave_store :
    (∀ (menu : Menu) (rn li : String) (store : Store) (callId : String)
        (itn : Option String) (q : Option ℚ) (si f s : Option String),
      (addToCart menu rn li store callId itn q si f s).1.statusCode ≠ 200 →
      (addToCart menu rn li store callId itn q si f s).2 = store) ∧
    (∀ (store : Store) (callId : String) (itn : Option String) (q : Option ℚ),
      (removeFromCart store callId itn q).1.statusCode ≠ 200 →
      (removeFromCart store callId itn q).2 = store) ∧
    (∀ (menu : Menu) (store : Store) (callId : String) (itn : Option String)
        (fm sm : List String),
      (addModifierToCart menu store callId itn fm sm).1.statusCode ≠ 200 →
      (addModifierToCart menu store callId itn fm sm).2 = store) ∧
    (∀ (store : Store) (callId : String) (itn : Option String) (fm sm : List String),
      (removeModifierFromCart store callId itn fm sm).1.statusCode ≠ 200 →
      (removeModifierFromCart store callId itn fm sm).2 = store) ∧
    (∀ (store : Store) (callId : String), (getCartSummary store callId).2 = store) ∧
    (∀ (store : Store) (callId : String), (upsell store callId).2 = store) := by
  refine ⟨?_, ?_, ?_, ?_, ?_, ?_⟩
  · intro menu rn li store callId itn q si f s h
    by_cases hc : callId = ""
    · simp [addToCart, hc]
    · simp only [addToCart, if_neg hc] at h ⊢
      exact runMutation_ne200_store _ _ _ h
  · intro store callId itn q h
    by_cases hc : callId = ""
    · simp [removeFromCart, hc]
    · simp only [removeFromCart, if_neg hc] at h ⊢
      exact runMutation_ne200_store _ _ _ h
  · intro menu store callId itn fm sm h
    by_cases hc : callId = ""
    · simp [addModifierToCart, hc]
    · simp only [addModifierToCart, if_neg hc] at h ⊢
      exact runMutation_ne200_store _ _ _ h
  · intro store callId itn fm sm h
    by_cases hc : callId = ""
    · simp [removeModifierFromCart, hc]
    · simp only [removeModifierFromCart, if_neg hc] at h ⊢
      exact runMutation_ne200_store _ _ _ h
  · intro store callId
    simp only [getCartSummary]
    repeat' split
    all_goals rfl
  · intro store callId
    simp only [upsell]
    repeat' split
    all_goals rfl

/-- Witness for C3 at concrete inputs: a validation failure of addToCart and
a not-found failure of removeModifierFromCart both leave the store intact. -/
theorem cart_ops_error_leave_store_witness :
    (addToCart [] "" "" ⟨none, false, false⟩ "" none none none none none).2 =
      ⟨none, false, false⟩ ∧
    (removeModifierFromCart ⟨some [], false, false⟩ "c" (some "X") ["Hot"] []).2 =
      ⟨some [], false, false⟩ :=
  ⟨cart_ops_error_leave_store.1 [] "" "" ⟨none, false, false⟩ "" none none none none none
      (by decide),
   cart_ops_error_leave_store.2.2.2.1 ⟨some [], false, false⟩ "c" (some "X") ["Hot"] []
      (by decide)⟩

/-- With a failing write the wrapper never reports success and leaves the
store unchanged (the throwing put becomes the catch-all 500). -/
theorem runMutation_writeFails (store : Store) (callId : String)
    (plan : List CartItem → Except ApiResponse (List CartItem × String))
    (hw : store.writeFails = true)
    (hplan : ∀ e, plan (getSessionCart store callId) = .error e → e.statusCode ≠ 200) :
    (runMutation store callId plan).1.statusCode ≠ 200 ∧
      (runMutation store callId plan).2 = store := by
  rcases hp : plan (getSessionCart store callId) with e | pr
  · exact ⟨by simpa [runMutation, hp] using hplan e hp, by simp [runMutation, hp]⟩
  · obtain ⟨nc, m⟩ := pr
    have hs : saveSessionCart store callId nc = .error () := by
      unfold saveSessionCart
      split
      · rfl
      · simp [hw]
    simp [runMutation, hp, hs]

/-- Claim C7 counterexample: with a cart record present but a failing read,
getCartSummary reports a 200 "Your cart is empty" instead of surfacing an
InternalError — the failing read is silently converted into an empty cart. -/
theorem getCartSummary_read_failure_not_surfaced :
    (getCartSummary ⟨some [namedItemFix "Sandwich"], true, false⟩ "c").1 =
      ⟨200, "Your cart is empty"⟩ ∧
    (getCartSummary ⟨some [namedItemFix "Sandwich"], true, false⟩ "c").1.statusCode ≠ 500 := by
  refine ⟨by decide, by decide⟩

/-- Claim C7 (amended): a failing WRITE of the Cart Store is surfaced — the
operation never reports success and the stored cart is unchanged (the
throwing put is caught as the 500 InternalError whenever the in-memory
mutation had succeeded); a failing READ is NOT surfaced: getSessionCart
swallows the error and returns the empty list, so operations proceed as if
the cart were empty rather than failing with an InternalError. -/
theorem cartStore_failure_handling :
    (∀ (store : Store) (callId : String), store.readFails = true →
      getSessionCart store callId = []) ∧
    (∀ (menu : Menu) (rn li : String) (store : Store) (callId : String)
        (itn : Option String) (q : Option ℚ) (si f s : Option String),
      store.writeFails = true →
      (addToCart menu rn li store callId itn q si f s).1.statusCode ≠ 200 ∧
      (addToCart menu rn li store callId itn q si f s).2 = store) ∧
    (∀ (store : Store) (callId : String) (itn : Option String) (q : Option ℚ),
      store.writeFails = true →
      (removeFromCart store callId itn q).1.statusCode ≠ 200 ∧
      (removeFromCart store callId itn q).2 = store) ∧
    (∀ (menu : Menu) (store : Store) (callId : String) (itn : Option String)
        (fm sm : List String), store.writeFails = true →
      (addModifierToCart menu store callId itn fm sm).1.statusCode ≠ 200 ∧
      (addModifierToCart menu store callId itn fm sm).2 = store) ∧
    (∀ (store : Store) (callId : String) (itn : Option String) (fm sm : List String),
      store.writeFails = true →
      (removeModifierFromCart store callId itn fm sm).1.statusCode ≠ 200 ∧
      (removeModifierFromCart store callId itn fm sm).2 = store) := by
  refine ⟨?_, ?_, ?_, ?_, ?_⟩
  · intro store callId h
    simp [getSessionCart, h]
  · intro menu rn li store callId itn q si f s hw
    by_cases hc : callId = ""
    · simp [addToCart, hc]
    · simp only [addToCart, if_neg hc]
      exact runMutation_writeFails _ _ _ hw (fun e he => by
        rcases addToCartPlan_error_code menu rn li itn q si f s _ e he with h4 | h4 <;> omega)
  · intro store callId itn q hw
    by_cases hc : callId = ""
    · simp [removeFromCart, hc]
    · simp only [removeFromCart, if_neg hc]
      exact runMutation_writeFails _ _ _ hw (fun e he => by
        rcases removeFromCartPlan_error_code itn q _ e he with h4 | h4 <;> omega)
  · intro menu store callId itn fm sm hw
    by_cases hc : callId = ""
    · simp [addModifierToCart, hc]
    · simp only [addModifierToCart, if_neg hc]
      exact runMutation_writeFails _ _ _ hw (fun e he => by
        rcases addModifierToCartPlan_error_code menu itn fm sm _ e he with h4 | h4 <;> omega)
  · intro store callId itn fm sm hw
    by_cases hc : callId = ""
    · simp [removeModifierFromCart, hc]
    · simp only [removeModifierFromCart, if_neg hc]
      exact runMutation_writeFails _ _ _ hw (fun e he => by
        rcases removeModifierFromCartPlan_error_code itn fm sm _ e he with h4 | h4 <;> omega)

/-- Witness for the amended C7 theorem at concrete inputs: a failing read
yields the empty cart, and a removeFromCart against a failing write reports
no success and leaves the store intact. -/
theorem cartStore_failure_handling_witness :
    getSessionCart ⟨some [namedItemFix "Sandwich"], true, false⟩ "c" = [] ∧
    (removeFromCart ⟨some [namedItemFix "Sandwich"], false, true⟩ "c"
        (some "Sandwich") none).1.statusCode ≠ 200 ∧
    (removeFromCart ⟨some [namedItemFix "Sandwich"], false, true⟩ "c"
        (some "Sandwich") none).2 = ⟨some [namedItemFix "Sandwich"], false, true⟩ :=
  ⟨cartStore_failure_handling.1 ⟨some [namedItemFix "Sandwich"], true, false⟩ "c" (by decide),
   (cartStore_failure_handling.2.2.1 ⟨some [namedItemFix "Sandwich"], false, true⟩ "c"
      (some "Sandwich") none (by decide)).1,
   (cartStore_failure_handling.2.2.1 ⟨some [namedItemFix "Sandwich"], false, true⟩ "c"
      (some "Sandwich") none (by decide)).2⟩

/-- Claim C10: passing quantityToRemove = 0 to removeFromCart is treated
exactly like omitting the quantity (0 is falsy under the `|| full quantity`
default), and therefore, whenever a matching line item exists, the whole
line item is deleted — the call succeeds and neither removes nothing nor
fails. -/
theorem removeFromCart_zero_quantity_deletes (store : Store) (callId : String)
    (n : String) (i : Nat) (hc : callId ≠ "") (hn : n ≠ "")
    (hw : store.writeFails = false)
    (hmatch : (getSessionCart store callId).findIdx? (fun item =>
      strContains (lowerStr item.name) (lowerStr n) ||
      strContains (lowerStr n) (lowerStr item.name)) = some i) :
    removeFromCart store callId (some n) (some 0) =
      removeFromCart store callId (some n) none ∧
    (removeFromCart store callId (some n) (some 0)).1.statusCode = 200 ∧
    (removeFromCart store callId (some n) (some 0)).2 =
      { store with cart := some ((getSessionCart store callId).eraseIdx i) } := by
  have hcart_ne : getSessionCart store callId ≠ [] := by
    intro h0
    rw [h0] at hmatch
    simp at hmatch
  have htr : jsTruthy (some n) = true := by simp [jsTruthy, hn]
  have hplan : ∀ qarg : Option ℚ, qarg = some 0 ∨ qarg = none →
      removeFromCartPlan (some n) qarg (getSessionCart store callId) =
      .ok ((getSessionCart store callId).eraseIdx i,
        "Removed " ++ ratStr ((getSessionCart store callId).getD i default).quantity ++
          " " ++ ((getSessionCart store callId).getD i default).name ++ " from cart") := by
    intro qarg hq
    rcases hq with hq | hq <;> subst hq <;>
      simp [removeFromCartPlan, htr, hcart_ne, hmatch, le_refl]
  have h0 := hplan (some 0) (Or.inl rfl)
  have hnone := hplan none (Or.inr rfl)
  have e0 := runMutation_of_ok store callId (removeFromCartPlan (some n) (some 0)) _ _ h0 hc hw
  have e1 := runMutation_of_ok store callId (removeFromCartPlan (some n) none) _ _ hnone hc hw
  refine ⟨?_, ?_, ?_⟩
  · unfold removeFromCart
    rw [if_neg hc, if_neg hc, e0, e1]
  · unfold removeFromCart
    rw [if_neg hc, e0]
  · unfold removeFromCart
    rw [if_neg hc, e0]

/-- Witness for C10 at a concrete cart: removing quantity 0 of the only
Fries line deletes the whole line, exactly as an omitted quantity would. -/
theorem removeFromCart_zero_quantity_deletes_witness :
    removeFromCart ⟨some [namedItemFix "Fries"], false, false⟩ "c" (some "Fries") (some 0) =
      removeFromCart ⟨some [namedItemFix "Fries"], false, false⟩ "c" (some "Fries") none ∧
    (removeFromCart ⟨some [namedItemFix "Fries"], false, false⟩ "c"
        (some "Fries") (some 0)).1.statusCode = 200 ∧
    (removeFromCart ⟨some [namedItemFix "Fries"], false, false⟩ "c"
        (some "Fries") (some 0)).2 =
      { Store.mk (some [namedItemFix "Fries"]) false false with
        cart := some ((getSessionCart ⟨some [namedItemFix "Fries"], false, false⟩ "c").eraseIdx 0) } :=
  removeFromCart_zero_quantity_deletes ⟨some [namedItemFix "Fries"], false, false⟩ "c"
    "Fries" 0 (by decide) (by decide) (by decide) (by decide)

/-- Fixture: a modifier-free Fries menu item priced 299 cents. -/
def friesItemFix : MenuItem := ⟨"VFRIES", 299, "USD", "", []⟩

/-- Fixture: a one-item menu. -/
def menuFix : Menu := [("Fries", friesItemFix)]

/-- Claim C4 counterexample: a request with quantity exactly 0 does NOT fail
with a ValidationError — the falsy 0 is replaced by the default 1 before
validation (`body.args?.quantity || 1`), so the item is added with
quantity 1 and the call reports success. -/
theorem addToCart_zero_quantity_is_added :
    (addToCart menuFix "R" "L" ⟨some [], false, false⟩ "c" (some "Fries") (some 0)
        (some "") none none).1.statusCode = 200 ∧
    ((addToCart menuFix "R" "L" ⟨some [], false, false⟩ "c" (some "Fries") (some 0)
        (some "") none none).2.cart.getD []).map (fun it => (it.item_name, it.quantity)) =
      [("Fries", 1)] := by
  refine ⟨by decide, by decide⟩

/-- Claim C4 (amended): with a truthy item name, a SUPPLIED non-zero quantity
that is not a positive integer fails with ValidationError 400 and an item
name that does not resolve in the menu fails with NotFoundError 404, the
stored cart untouched in both cases; but a quantity equal to 0 is falsy and
is replaced by the default 1 before validation, so such a request behaves
exactly like one with the quantity omitted and adds the item. -/
theorem addToCart_validation (menu : Menu) (rn li : String) (store : Store)
    (callId : String) (n : String) (si f s : Option String)
    (hc : callId ≠ "") (hn : n ≠ "") :
    (∀ q : ℚ, q ≠ 0 → q ≤ 0 ∨ q.den ≠ 1 →
      addToCart menu rn li store callId (some n) (some q) si f s =
        (⟨400, "Quantity must be a positive integer"⟩, store)) ∧
    (∀ q : ℚ, 0 < q → q.den = 1 → menuLookup menu n = none →
      addToCart menu rn li store callId (some n) (some q) si f s =
        (⟨404, "Item \"" ++ n ++ "\" not found in " ++ rn ++ " " ++ li ++ " menu"⟩, store)) ∧
    (addToCart menu rn li store callId (some n) (some 0) si f s =
      addToCart menu rn li store callId (some n) none si f s) := by
  have htr : jsTruthy (some n) = true := by simp [jsTruthy, hn]
  refine ⟨?_, ?_, ?_⟩
  · intro q hq0 hbad
    have hplan : addToCartPlan menu rn li (some n) (some q) si f s
        (getSessionCart store callId) =
        .error ⟨400, "Quantity must be a positive integer"⟩ := by
      simp only [addToCartPlan, htr]
      simp [hq0, hbad]
    unfold addToCart
    rw [if_neg hc, runMutation_of_error _ _ _ _ hplan]
  · intro q hqpos hqden hmiss
    have hq0 : ¬ q = 0 := by positivity
    have hnotbad : ¬ (q ≤ 0 ∨ q.den ≠ 1) := by
      push_neg
      exact ⟨hqpos, hqden⟩
    have hplan : addToCartPlan menu rn li (some n) (some q) si f s
        (getSessionCart store callId) =
        .error ⟨404, "Item \"" ++ n ++ "\" not found in " ++ rn ++ " " ++ li ++ " menu"⟩ := by
      simp only [addToCartPlan, htr]
      simp [hq0, hnotbad, hmiss]
    unfold addToCart
    rw [if_neg hc, runMutation_of_error _ _ _ _ hplan]
  · unfold addToCart
    by_cases hcc : callId = ""
    · simp [hcc]
    · rw [if_neg hcc, if_neg hcc]
      have hpl : addToCartPlan menu rn li (some n) (some 0) si f s =
          addToCartPlan menu rn li (some n) none si f s := by
        funext cart
        simp only [addToCartPlan]
        norm_num
      rw [hpl]

/-- Witness for the amended C4 theorem: quantity -1 is rejected with 400, an
unknown item is rejected with 404, both leaving the store unchanged. -/
theorem addToCart_validation_witness :
    (addToCart menuFix "R" "L" ⟨some [], false, false⟩ "c" (some "Fries") (some (-1))
        none none none =
      (⟨400, "Quantity must be a positive integer"⟩, ⟨some [], false, false⟩)) ∧
    (addToCart [] "R" "L" ⟨some [], false, false⟩ "c" (some "X") (some 1) none none none =
      (⟨404, "Item \"X\" not found in R L menu"⟩, ⟨some [], false, false⟩)) := by
  constructor
  · exact (addToCart_validation menuFix "R" "L" ⟨some [], false, false⟩ "c" "Fries"
      none none none (by decide) (by decide)).1 (-1) (by norm_num) (by norm_num)
  · exact (addToCart_validation [] "R" "L" ⟨some [], false, false⟩ "c" "X"
      none none none (by decide) (by decide)).2.1 1 (by norm_num) (by norm_num) (by decide)

set_option maxHeartbeats 1000000 in
/-- A successful addModifierToCart plan only ever rewrites the cart at the
index the reverse scan selected. -/
theorem addModifierToCartPlan_ok_shape (menu : Menu) (itn : Option String)
    (fm sm : List String) (cart nc : List CartItem) (msg : String)
    (h : addModifierToCartPlan menu itn fm sm cart = .ok (nc, msg)) :
    ∃ i e, lastMatchIdx (itn.getD "") cart = some i ∧ nc = cart.set i e := by
  simp only [addModifierToCartPlan] at h
  repeat' split at h
  all_goals try cases h
  all_goals exact ⟨_, _, by assumption, rfl⟩

set_option maxHeartbeats 1000000 in
/-- A successful removeModifierFromCart plan only ever rewrites the cart at
the index the reverse scan selected. -/
theorem removeModifierFromCartPlan_ok_shape (itn : Option String)
    (fm sm : List String) (cart nc : List CartItem) (msg : String)
    (h : removeModifierFromCartPlan itn fm sm cart = .ok (nc, msg)) :
    ∃ i e, lastMatchIdx (itn.getD "") cart = some i ∧ nc = cart.set i e := by
  simp only [removeModifierFromCartPlan] at h
  repeat' split at h
  all_goals try cases h
  all_goals exact ⟨_, _, by assumption, rfl⟩

set_option maxHeartbeats 1000000 in
/-- When no cart entry matches the requested name, the addModifierToCart
plan fails with a 404 (either no valid modifiers or no entry to modify). -/
theorem addModifierToCartPlan_nomatch (menu : Menu) (n : String) (fm sm : List String)
    (cart : List CartItem) (hn : n ≠ "") (hlists : ¬ (fm = [] ∧ sm = []))
    (hmiss : lastMatchIdx n cart = none) :
    ∃ msg, addModifierToCartPlan menu (some n) fm sm cart = .error ⟨404, msg⟩ := by
  have htr : jsTruthy (some n) = true := by simp [jsTruthy, hn]
  simp only [addModifierToCartPlan, htr]
  repeat' split
  all_goals first | (exact ⟨_, rfl⟩) | simp_all

set_option maxHeartbeats 1000000 in
/-- When the cart is non-empty but no entry matches the requested name, the
removeModifierFromCart plan fails with a 404. -/
theorem removeModifierFromCartPlan_nomatch (n : String) (fm sm : List String)
    (cart : List CartItem) (hn : n ≠ "") (hlists : ¬ (fm = [] ∧ sm = []))
    (hne : cart ≠ []) (hmiss : lastMatchIdx n cart = none) :
    ∃ msg, removeModifierFromCartPlan (some n) fm sm cart = .error ⟨404, msg⟩ := by
  have htr : jsTruthy (some n) = true := by simp [jsTruthy, hn]
  simp only [removeModifierFromCartPlan, htr]
  repeat' split
  all_goals first | (exact ⟨_, rfl⟩) | simp_all

/-- Fixture: a one-dollar Bacon menu modifier option. -/
def baconOptFix : ModifierOption := ⟨"mb", "Bacon", 100, "USD"⟩

/-- Fixture: a Sandwich menu item with an Extras category holding Bacon. -/
def sandwichMenuItemFix : MenuItem := ⟨"VS", 899, "USD", "", [⟨"Extras", [baconOptFix]⟩]⟩

/-- Fixture: a one-item menu for the Sandwich. -/
def sandwichMenuFix : Menu := [("Sandwich", sandwichMenuItemFix)]

/-- Fixture: two modifier-free Sandwiches in the cart, line total 17.98. -/
def plainSandwichFix : CartItem :=
  ⟨"VS", "Sandwich", 899, "USD", "", 2, "", (899 : ℚ)/100, (899 : ℚ)/100 * 2, [], "VS", "Sandwich"⟩

/-- Fixture: a store holding one plain Sandwich entry. -/
def sandwichStoreFix : Store := ⟨some [plainSandwichFix], false, false⟩

/-- Claim C9 counterexample: removeModifiers against a cart that contains no
entry at all (so in particular none with the requested name) fails with the
ValidationError 400 "Cart is empty", not with the claimed NotFoundError. -/
theorem removeModifier_empty_cart_not_404 :
    (removeModifierFromCart ⟨some [], false, false⟩ "c" (some "Sandwich") ["Hot"] []).1 =
      ⟨400, "Cart is empty"⟩ ∧
    (removeModifierFromCart ⟨some [], false, false⟩ "c"
        (some "Sandwich") ["Hot"] []).1.statusCode ≠ 404 := by
  refine ⟨by decide, by decide⟩

/-- Claim C9 (amended): whenever addModifiers or removeModifiers succeeds it
has rewritten exactly the matching cart entry with the greatest index (the
most recently added, found by the reverse scan) and no other entry; with at
least one requested modifier name, addModifiers on a cart with no matching
entry fails with a 404 NotFoundError, and removeModifiers fails with a 404
only when the cart is non-empty — on an empty cart it fails with the 400
ValidationError "Cart is empty" instead. -/
theorem modifier_ops_target_last_match :
    (∀ (menu : Menu) (store : Store) (callId n : String) (fm sm : List String),
      (addModifierToCart menu store callId (some n) fm sm).1.statusCode = 200 →
      ∃ i e, lastMatchIdx n (getSessionCart store callId) = some i ∧
        i < (getSessionCart store callId).length ∧
        matchesName ((getSessionCart store callId).getD i default) n = true ∧
        (∀ j, i < j → j < (getSessionCart store callId).length →
          matchesName ((getSessionCart store callId).getD j default) n = false) ∧
        (addModifierToCart menu store callId (some n) fm sm).2 =
          { store with cart := some ((getSessionCart store callId).set i e) }) ∧
    (∀ (store : Store) (callId n : String) (fm sm : List String),
      (removeModifierFromCart store callId (some n) fm sm).1.statusCode = 200 →
      ∃ i e, lastMatchIdx n (getSessionCart store callId) = some i ∧
        i < (getSessionCart store callId).length ∧
        matchesName ((getSessionCart store callId).getD i default) n = true ∧
        (∀ j, i < j → j < (getSessionCart store callId).length →
          matchesName ((getSessionCart store callId).getD j default) n = false) ∧
        (removeModifierFromCart store callId (some n) fm sm).2 =
          { store with cart := some ((getSessionCart store callId).set i e) }) ∧
    (∀ (menu : Menu) (store : Store) (callId n : String) (fm sm : List String),
      callId ≠ "" → n ≠ "" → ¬ (fm = [] ∧ sm = []) →
      lastMatchIdx n (getSessionCart store callId) = none →
      (addModifierToCart menu store callId (some n) fm sm).1.statusCode = 404) ∧
    (∀ (store : Store) (callId n : String) (fm sm : List String),
      callId ≠ "" → n ≠ "" → ¬ (fm = [] ∧ sm = []) →
      getSessionCart store callId ≠ [] →
      lastMatchIdx n (getSessionCart store callId) = none →
      (removeModifierFromCart store callId (some n) fm sm).1.statusCode = 404) ∧
    (∀ (store : Store) (callId n : String) (fm sm : List String),
      callId ≠ "" → n ≠ "" → ¬ (fm = [] ∧ sm = []) →
      getSessionCart store callId = [] →
      (removeModifierFromCart store callId (some n) fm sm).1 = ⟨400, "Cart is empty"⟩) := by
  refine ⟨?_, ?_, ?_, ?_, ?_⟩
  · intro menu store callId n fm sm h
    by_cases hc : callId = ""
    · rw [addModifierToCart, if_pos hc] at h
      simp at h
    · rw [addModifierToCart, if_neg hc] at h
      obtain ⟨nc, msg, hok, hst⟩ := runMutation_success_shape store callId _
        (fun e he => by
          rcases addModifierToCartPlan_error_code menu (some n) fm sm _ e he with h4 | h4 <;>
            omega) h
      obtain ⟨i, e, hlast, hnc⟩ := addModifierToCartPlan_ok_shape menu (some n) fm sm _ _ _ hok
      simp only [Option.getD_some] at hlast
      obtain ⟨hlen, hm, hgreat⟩ := lastMatchIdx_spec n _ i hlast
      refine ⟨i, e, hlast, hlen, hm, hgreat, ?_⟩
      rw [addModifierToCart, if_neg hc, hst, hnc]
  · intro store callId n fm sm h
    by_cases hc : callId = ""
    · rw [removeModifierFromCart, if_pos hc] at h
      simp at h
    · rw [removeModifierFromCart, if_neg hc] at h
      obtain ⟨nc, msg, hok, hst⟩ := runMutation_success_shape store callId _
        (fun e he => by
          rcases removeModifierFromCartPlan_error_code (some n) fm sm _ e he with h4 | h4 <;>
            omega) h
      obtain ⟨i, e, hlast, hnc⟩ := removeModifierFromCartPlan_ok_shape (some n) fm sm _ _ _ hok
      simp only [Option.getD_some] at hlast
      obtain ⟨hlen, hm, hgreat⟩ := lastMatchIdx_spec n _ i hlast
      refine ⟨i, e, hlast, hlen, hm, hgreat, ?_⟩
      rw [removeModifierFromCart, if_neg hc, hst, hnc]
  · intro menu store callId n fm sm hc hn hlists hmiss
    obtain ⟨msg, hplan⟩ := addModifierToCartPlan_nomatch menu n fm sm _ hn hlists hmiss
    rw [addModifierToCart, if_neg hc, runMutation_of_error _ _ _ _ hplan]
  · intro store callId n fm sm hc hn hlists hne hmiss
    obtain ⟨msg, hplan⟩ := removeModifierFromCartPlan_nomatch n fm sm _ hn hlists hne hmiss
    rw [removeModifierFromCart, if_neg hc, runMutation_of_error _ _ _ _ hplan]
  · intro store callId n fm sm hc hn hlists hempty
    have htr : jsTruthy (some n) = true := by simp [jsTruthy, hn]
    have hplan : removeModifierFromCartPlan (some n) fm sm (getSessionCart store callId) =
        .error ⟨400, "Cart is empty"⟩ := by
      simp only [removeModifierFromCartPlan, htr, hempty]
      simp [hlists]
    rw [removeModifierFromCart, if_neg hc, runMutation_of_error _ _ _ _ hplan]

/-- Witness for the amended C9 theorem: a successful addModifiers call on the
Sandwich cart rewrites exactly the greatest matching index, and a
removeModifiers call on an empty cart answers 400 "Cart is empty". -/
theorem modifier_ops_target_last_match_witness :
    (∃ i e, lastMatchIdx "Sandwich" (getSessionCart sandwichStoreFix "c") = some i ∧
      i < (getSessionCart sandwichStoreFix "c").length ∧
      matchesName ((getSessionCart sandwichStoreFix "c").getD i default) "Sandwich" = true ∧
      (∀ j, i < j → j < (getSessionCart sandwichStoreFix "c").length →
        matchesName ((getSessionCart sandwichStoreFix "c").getD j default) "Sandwich" = false) ∧
      (addModifierToCart sandwichMenuFix sandwichStoreFix "c"
          (some "Sandwich") ["Bacon"] []).2 =
        { sandwichStoreFix with
          cart := some ((getSessionCart sandwichStoreFix "c").set i e) }) ∧
    (removeModifierFromCart ⟨some [], false, false⟩ "c2" (some "Sandwich") ["Hot"] []).1 =
      ⟨400, "Cart is empty"⟩ :=
  ⟨modifier_ops_target_last_match.1 sandwichMenuFix sandwichStoreFix "c" "Sandwich"
      ["Bacon"] [] (by decide),
   modifier_ops_target_last_match.2.2.2.2 ⟨some [], false, false⟩ "c2" "Sandwich"
      ["Hot"] [] (by decide) (by decide) (by simp) (by decide)⟩

/-- The merge check ignores the quantity the candidate was built with. -/
theorem mergeableB_buildCartItem_qty (x : CartItem) (mi : MenuItem) (n : String)
    (q1 q2 : ℚ) (instr : String) (f s : Option String) :
    mergeableB x (buildCartItem mi n q1 instr f s) =
      mergeableB x (buildCartItem mi n q2 instr f s) := rfl

/-- Two candidates built from the same menu item, name, instructions and
spice requests are mergeable whatever their quantities. -/
theorem mergeableB_build_build (mi : MenuItem) (n : String) (q1 q2 : ℚ)
    (instr : String) (f s : Option String) :
    mergeableB (buildCartItem mi n q1 instr f s) (buildCartItem mi n q2 instr f s) = true := by
  simp [mergeableB, buildCartItem]

/-- No two entries of the cart are mergeable — the uniqueness invariant of
the specification for mergeable line items. -/
def pairwiseNotMergeable (cart : List CartItem) : Prop :=
  List.Pairwise (fun a b => mergeableB a b = false) cart

/-- Rewriting one entry with a merge-equivalent one preserves the pairwise
non-mergeability invariant. -/
theorem pairwiseNotMergeable_set (cart : List CartItem) (i : Nat) (e : CartItem)
    (hi : i < cart.length)
    (hcfg : ∀ x, mergeableB x e = mergeableB x (cart.getD i default) ∧
      mergeableB e x = mergeableB (cart.getD i default) x)
    (h : pairwiseNotMergeable cart) : pairwiseNotMergeable (cart.set i e) := by
  induction cart generalizing i with
  | nil => simp at hi
  | cons a rest ih =>
    cases i with
    | zero =>
      rw [List.set_cons_zero]
      refine List.Pairwise.cons ?_ (List.Pairwise.sublist (List.sublist_cons_self a rest) h)
      intro b hb
      have := (List.pairwise_cons.mp h).1 b hb
      calc mergeableB e b = mergeableB ((a :: rest).getD 0 default) b := (hcfg b).2
        _ = mergeableB a b := by simp [List.getD_cons_zero]
        _ = false := this
    | succ j =>
      rw [List.set_cons_succ]
      obtain ⟨hhead, htail⟩ := List.pairwise_cons.mp h
      have hj : j < rest.length := by simpa using hi
      refine List.Pairwise.cons ?_ (ih j hj (fun x => by
        simpa [List.getD_cons_succ] using hcfg x) htail)
      intro b hb
      rcases List.mem_or_eq_of_mem_set hb with hmem | heq
      · exact hhead b hmem
      · subst heq
        have hmem : rest.getD j default ∈ rest := by
          rw [List.getD_eq_getElem rest default hj]
          exact List.getElem_mem hj
        calc mergeableB a b = mergeableB a ((a :: rest).getD (j+1) default) := (hcfg a).1.symm ▸ rfl
          _ = mergeableB a (rest.getD j default) := by simp [List.getD_cons_succ]
          _ = false := hhead _ hmem

set_option maxHeartbeats 1000000 in
/-- A successful addToCart plan either merged into an existing entry
(rewriting one index with a merge-equivalent entry) or appended a candidate
that is mergeable with no existing entry. -/
theorem addToCartPlan_ok_cases (menu : Menu) (rn li : String) (itn : Option String)
    (q : Option ℚ) (si f s : Option String) (cart nc : List CartItem) (msg : String)
    (h : addToCartPlan menu rn li itn q si f s cart = .ok (nc, msg)) :
    (∃ i e, i < cart.length ∧
      (∀ x, mergeableB x e = mergeableB x (cart.getD i default) ∧
        mergeableB e x = mergeableB (cart.getD i default) x) ∧
      nc = cart.set i e) ∨
    (∃ cand, cart.findIdx? (fun item => mergeableB item cand) = none ∧
      nc = cart ++ [cand]) := by
  simp only [addToCartPlan] at h
  repeat' split at h
  all_goals try cases h
  all_goals first
    | (right; exact ⟨_, by assumption, rfl⟩)
    | (left
       refine ⟨_, _, (List.findIdx?_eq_some_iff_getElem.mp (by assumption)).1, ?_, rfl⟩
       exact fun x => ⟨rfl, rfl⟩)

set_option maxHeartbeats 1600000 in
/-- Claim C2: adding the same resolved menu item twice with the same special
instructions and spice requests (hence identical applied-modifier multisets)
merges into a single entry whose quantity is q1 + q2 — the resulting cart
holds exactly one entry mergeable with that configuration; and addToCart
never creates a second entry mergeable with an existing one: it preserves
the pairwise non-mergeability invariant on every call. -/
theorem addToCart_merges_duplicates :
    (∀ (menu : Menu) (rn li : String) (store : Store) (callId n instr : String)
        (q1 q2 : ℚ) (f s : Option String) (mi : MenuItem),
      callId ≠ "" → n ≠ "" → store.readFails = false → store.writeFails = false →
      menuLookup menu n = some mi →
      0 < q1 → q1.den = 1 → 0 < q2 → q2.den = 1 →
      (∀ it ∈ getSessionCart store callId,
        mergeableB it (buildCartItem mi n q1 instr f s) = false) →
      ∃ e, (getSessionCart (addToCart menu rn li
          (addToCart menu rn li store callId (some n) (some q1) (some instr) f s).2
          callId (some n) (some q2) (some instr) f s).2 callId).filter
            (fun it => mergeableB it (buildCartItem mi n q1 instr f s)) = [e] ∧
        e.quantity = q1 + q2) ∧
    (∀ (menu : Menu) (rn li : String) (store : Store) (callId : String)
        (itn : Option String) (q : Option ℚ) (si f s : Option String),
      pairwiseNotMergeable (getSessionCart store callId) →
      pairwiseNotMergeable (getSessionCart
        (addToCart menu rn li store callId itn q si f s).2 callId)) := by
  constructor
  · intro menu rn li store callId n instr q1 q2 f s mi hc hn hr hw hmi hq1 hd1 hq2 hd2 hfresh
    have htr : jsTruthy (some n) = true := by simp [jsTruthy, hn]
    have hnz1 : ¬ q1 = 0 := by positivity
    have hnb1 : ¬ (q1 ≤ 0 ∨ q1.den ≠ 1) := by push_neg; exact ⟨hq1, hd1⟩
    have hnz2 : ¬ q2 = 0 := by positivity
    have hnb2 : ¬ (q2 ≤ 0 ∨ q2.den ≠ 1) := by push_neg; exact ⟨hq2, hd2⟩
    have hfind1 : (getSessionCart store callId).findIdx?
        (fun item => mergeableB item (buildCartItem mi n q1 instr f s)) = none :=
      List.findIdx?_eq_none_iff.mpr hfresh
    have hplan1 : addToCartPlan menu rn li (some n) (some q1) (some instr) f s
        (getSessionCart store callId) =
        .ok (getSessionCart store callId ++ [buildCartItem mi n q1 instr f s],
          "Added " ++ ratStr q1 ++ " " ++ n ++ " to cart for " ++ rn ++ " " ++ li) := by
      simp only [addToCartPlan, htr]
      simp [hnz1, hnb1, hmi, hfind1]
    have e1 := runMutation_of_ok store callId _ _ _ hplan1 hc hw
    have hcall1 : (addToCart menu rn li store callId (some n) (some q1) (some instr) f s).2 =
        { store with cart := some (getSessionCart store callId ++
            [buildCartItem mi n q1 instr f s]) } := by
      rw [addToCart, if_neg hc, e1]
    rw [hcall1]
    have hgs1 : getSessionCart { store with cart := some (getSessionCart store callId ++
        [buildCartItem mi n q1 instr f s]) } callId =
        getSessionCart store callId ++ [buildCartItem mi n q1 instr f s] := by
      simp [getSessionCart, hc, hr]
    have hmerge2 : ∀ it ∈ getSessionCart store callId,
        mergeableB it (buildCartItem mi n q2 instr f s) = false := by
      intro it hit
      rw [← mergeableB_buildCartItem_qty it mi n q1 q2 instr f s]
      exact hfresh it hit
    have hfind2 : (getSessionCart store callId ++ [buildCartItem mi n q1 instr f s]).findIdx?
        (fun item => mergeableB item (buildCartItem mi n q2 instr f s)) =
        some (getSessionCart store callId).length := by
      rw [List.findIdx?_append, List.findIdx?_eq_none_iff.mpr hmerge2]
      simp [List.findIdx?_cons, mergeableB_build_build]
    have hgetd : (getSessionCart store callId ++
        [buildCartItem mi n q1 instr f s]).getD (getSessionCart store callId).length default =
        buildCartItem mi n q1 instr f s := by
      simp [List.getD_append_right]
    have hplan2 : addToCartPlan menu rn li (some n) (some q2) (some instr) f s
        (getSessionCart store callId ++ [buildCartItem mi n q1 instr f s]) =
        .ok (getSessionCart store callId ++
            [{ buildCartItem mi n q1 instr f s with
              quantity := (buildCartItem mi n q1 instr f s).quantity + q2
              lineTotal := ((buildCartItem mi n q1 instr f s).unitPrice +
                modifierSum (buildCartItem mi n q1 instr f s).modifiers) *
                ((buildCartItem mi n q1 instr f s).quantity + q2) }],
          "Added " ++ ratStr q2 ++ " " ++ n ++ " to cart for " ++ rn ++ " " ++ li) := by
      simp only [addToCartPlan, htr]
      simp [hnz2, hnb2, hmi, hfind2, hgetd, List.set_append]
    rw [← hgs1] at hplan2
    have e2 := runMutation_of_ok _ callId _ _ _ hplan2 hc (by simpa using hw)
    have hcall2 : (addToCart menu rn li { store with cart := some (getSessionCart store callId ++
        [buildCartItem mi n q1 instr f s]) } callId (some n) (some q2) (some instr) f s).2 =
        { store with cart := some (getSessionCart store callId ++
            [{ buildCartItem mi n q1 instr f s with
              quantity := (buildCartItem mi n q1 instr f s).quantity + q2
              lineTotal := ((buildCartItem mi n q1 instr f s).unitPrice +
                modifierSum (buildCartItem mi n q1 instr f s).modifiers) *
                ((buildCartItem mi n q1 instr f s).quantity + q2) }]) } := by
      rw [addToCart, if_neg hc, e2]
    rw [hcall2]
    have hgs2 : getSessionCart { store with cart := some (getSessionCart store callId ++
        [{ buildCartItem mi n q1 instr f s with
          quantity := (buildCartItem mi n q1 instr f s).quantity + q2
          lineTotal := ((buildCartItem mi n q1 instr f s).unitPrice +
            modifierSum (buildCartItem mi n q1 instr f s).modifiers) *
            ((buildCartItem mi n q1 instr f s).quantity + q2) }]) } callId =
        getSessionCart store callId ++
          [{ buildCartItem mi n q1 instr f s with
            quantity := (buildCartItem mi n q1 instr f s).quantity + q2
            lineTotal := ((buildCartItem mi n q1 instr f s).unitPrice +
              modifierSum (buildCartItem mi n q1 instr f s).modifiers) *
              ((buildCartItem mi n q1 instr f s).quantity + q2) }] := by
      simp [getSessionCart, hc, hr]
    rw [hgs2]
    refine ⟨{ buildCartItem mi n q1 instr f s with
      quantity := (buildCartItem mi n q1 instr f s).quantity + q2
      lineTotal := ((buildCartItem mi n q1 instr f s).unitPrice +
        modifierSum (buildCartItem mi n q1 instr f s).modifiers) *
        ((buildCartItem mi n q1 instr f s).quantity + q2) }, ?_, rfl⟩
    rw [List.filter_append]
    rw [List.filter_eq_nil_iff.mpr (fun a ha => by simp [hfresh a ha])]
    have hmm : mergeableB
        { buildCartItem mi n q1 instr f s with
          quantity := (buildCartItem mi n q1 instr f s).quantity + q2
          lineTotal := ((buildCartItem mi n q1 instr f s).unitPrice +
            modifierSum (buildCartItem mi n q1 instr f s).modifiers) *
            ((buildCartItem mi n q1 instr f s).quantity + q2) }
        (buildCartItem mi n q1 instr f s) = true :=
      mergeableB_build_build mi n q1 q1 instr f s
    simp [hmm]
  · intro menu rn li store callId itn q si f s hp
    by_cases hc : callId = ""
    · simpa [addToCart, hc] using hp
    · rw [addToCart, if_neg hc]
      rcases hplan : addToCartPlan menu rn li itn q si f s (getSessionCart store callId)
        with e | pr
      · rw [runMutation_of_error _ _ _ _ hplan]
        exact hp
      · obtain ⟨nc, msg⟩ := pr
        by_cases hwf : store.writeFails = true
        · have hrm : runMutation store callId
              (addToCartPlan menu rn li itn q si f s) = (⟨500, "Internal server error"⟩, store) := by
            have hs : saveSessionCart store callId nc = .error () := by
              unfold saveSessionCart
              split
              · rfl
              · simp [hwf]
            simp [runMutation, hplan, hs]
          rw [hrm]
          exact hp
        · have e1 := runMutation_of_ok store callId _ _ _ hplan hc (by simpa using hwf)
          rw [e1]
          by_cases hrf : store.readFails = true
          · simp [getSessionCart, hc, hrf, pairwiseNotMergeable]
          · have hgs : getSessionCart { store with cart := some nc } callId = nc := by
              simp [getSessionCart, hc]
              intro h500
              exact absurd h500 hrf
            rw [hgs]
            rcases addToCartPlan_ok_cases menu rn li itn q si f s _ nc msg hplan with
              ⟨i, e, hi, hcfg, hnc⟩ | ⟨cand, hnone, hnc⟩
            · subst hnc
              have hp0 : pairwiseNotMergeable (getSessionCart store callId) := by
                by_cases hrf2 : store.readFails = true
                · exact absurd hrf2 hrf
                · exact hp
              exact pairwiseNotMergeable_set _ i e hi hcfg hp0
            · subst hnc
              refine List.pairwise_append.mpr ⟨hp, List.pairwise_singleton _ _, ?_⟩
              intro a ha b hb
              rw [List.mem_singleton] at hb
              subst hb
              exact List.findIdx?_eq_none_iff.mp hnone a ha

/-- Witness for C2: adding 1 Fries then 2 Fries to an empty session leaves
exactly one mergeable entry with quantity 3, and the first add preserves the
no-duplicate invariant. -/
theorem addToCart_merges_duplicates_witness :
    (∃ e, (getSessionCart (addToCart menuFix "R" "L"
        (addToCart menuFix "R" "L" ⟨some [], false, false⟩ "c" (some "Fries") (some 1)
          (some "") none none).2
        "c" (some "Fries") (some 2) (some "") none none).2 "c").filter
          (fun it => mergeableB it (buildCartItem friesItemFix "Fries" 1 "" none none)) = [e] ∧
      e.quantity = 1 + 2) ∧
    pairwiseNotMergeable (getSessionCart
      (addToCart menuFix "R" "L" ⟨some [], false, false⟩ "c" (some "Fries") (some 1)
        (some "") none none).2 "c") :=
  ⟨addToCart_merges_duplicates.1 menuFix "R" "L" ⟨some [], false, false⟩ "c" "Fries" ""
      1 2 none none friesItemFix (by decide) (by decide) rfl rfl (by decide)
      (by norm_num) (by decide) (by norm_num) (by decide) (by simp [getSessionCart]),
   addToCart_merges_duplicates.2 menuFix "R" "L" ⟨some [], false, false⟩ "c" (some "Fries")
      (some 1) (some "") none none (by simp [getSessionCart, pairwiseNotMergeable])⟩

/-- When every incoming modifier has a fresh optionId (pairwise distinct and
absent from the current list), the application loop appends them all,
skipping none. -/
theorem applyMods_fresh (cur ms : List AppliedModifier)
    (hnodup : (ms.map (fun m => m.optionId)).Nodup)
    (hfresh : ∀ m ∈ ms, ∀ x ∈ cur, ¬ x.optionId = m.optionId) :
    applyMods cur ms = (cur ++ ms, ms, []) := by
  induction ms generalizing cur with
  | nil => simp [applyMods]
  | cons m rest ih =>
    have hany : cur.any (fun x => x.optionId = m.optionId) = false := by
      simp only [List.any_eq_false, decide_eq_true_eq]
      intro x hx
      exact hfresh m (by simp) x hx
    rw [List.map_cons] at hnodup
    have hnd := List.nodup_cons.mp hnodup
    have hfresh2 : ∀ m2 ∈ rest, ∀ x ∈ cur ++ [m], ¬ x.optionId = m2.optionId := by
      intro m2 hm2 x hx
      rcases List.mem_append.mp hx with hxc | hxm
      · exact hfresh m2 (by simp [hm2]) x hxc
      · rw [List.mem_singleton] at hxm
        subst hxm
        intro heq
        exact hnd.1 (by
          rw [heq]
          exact List.mem_map_of_mem (fun m => m.optionId) hm2)
    have hrest := ih (cur ++ [m]) hnd.2 hfresh2
    simp [applyMods, hany, hrest]

/-- Erasing at the boundary index of an append removes the head of the right
part. -/
theorem eraseIdx_append_cons (l1 l2 : List AppliedModifier) (x : AppliedModifier) :
    (l1 ++ x :: l2).eraseIdx l1.length = l1 ++ l2 := by
  induction l1 with
  | nil => simp [List.eraseIdx]
  | cons a rest ih => simp [List.eraseIdx, ih]

/-- Reading at the boundary index of an append yields the head of the right
part. -/
theorem getD_append_cons (l1 l2 : List AppliedModifier) (x d : AppliedModifier) :
    (l1 ++ x :: l2).getD l1.length d = x := by
  induction l1 with
  | nil => simp
  | cons a rest ih => simpa using ih

/-- The first index satisfying the predicate is the boundary when the left
part has no match and the boundary element matches. -/
theorem findIdx_append_cons_boundary (p : AppliedModifier → Bool)
    (l1 l2 : List AppliedModifier) (x : AppliedModifier)
    (hl1 : ∀ a ∈ l1, p a = false) (hx : p x = true) :
    (l1 ++ x :: l2).findIdx? p = some l1.length := by
  rw [List.findIdx?_append, List.findIdx?_eq_none_iff.mpr hl1]
  simp [List.findIdx?_cons, hx]

/-- filterMap collapses to map when the function is total on the list. -/
theorem filterMap_eq_map_of_all_some {α β : Type} (f : α → Option β) (g : α → β)
    (l : List α) (h : ∀ a ∈ l, f a = some (g a)) : l.filterMap f = l.map g := by
  induction l with
  | nil => simp
  | cons a rest ih =>
    rw [List.map_cons, List.filterMap_cons, h a (by simp)]
    rw [ih (fun b hb => h b (by simp [hb]))]

/-- Rewriting an index with the element already there is the identity. -/
theorem set_getD_self (l : List CartItem) (i : Nat) (hi : i < l.length) :
    l.set i (l.getD i default) = l := by
  apply List.ext_getElem?
  intro j
  rw [List.getElem?_set]
  split
  · simp_all [List.getD_eq_getElem]
  · rfl

/-- Reading back the index just rewritten yields the new element. -/
theorem getD_set_self (l : List CartItem) (i : Nat) (e : CartItem)
    (hi : i < l.length) : (l.set i e).getD i default = e := by
  have : (l.set i e)[i]? = some e := by
    rw [List.getElem?_set_self]
    simp [hi]
  simp [List.getD, this]

/-- The reverse name scan is unchanged by rewriting one entry with an entry
carrying the same names. -/
theorem lastMatchIdx_set (n : String) (cart : List CartItem) (i : Nat) (e : CartItem)
    (hm : matchesName e n = matchesName (cart.getD i default) n) :
    lastMatchIdx n (cart.set i e) = lastMatchIdx n cart := by
  induction cart generalizing i with
  | nil => simp
  | cons a rest ih =>
    cases i with
    | zero =>
      rw [List.set_cons_zero, lastMatchIdx_cons, lastMatchIdx_cons]
      have hm0 : matchesName e n = matchesName a n := by simpa using hm
      rw [hm0]
    | succ j =>
      rw [List.set_cons_succ, lastMatchIdx_cons, lastMatchIdx_cons,
        ih j (by simpa [List.getD_cons_succ] using hm)]

/-- The removal loop, fed names whose resolved modifiers sit appended (in
the same order) between untouched prefix and suffix that match none of the
names, removes exactly the appended modifiers and fails on nothing. -/
theorem removeMods_appended (scope : Option String) (names : List String)
    (f : String → AppliedModifier) (orig B : List AppliedModifier)
    (horig : ∀ mod ∈ orig, ∀ nm ∈ names, modMatches scope nm mod = false)
    (hB : ∀ mod ∈ B, ∀ nm ∈ names, modMatches scope nm mod = false)
    (hf : ∀ nm ∈ names, modMatches scope nm (f nm) = true) :
    removeMods scope (orig ++ (names.map f ++ B)) names = (orig ++ B, names.map f, []) := by
  induction names with
  | nil => simp [removeMods]
  | cons nm rest ih =>
    have hxm : modMatches scope nm (f nm) = true := hf nm (by simp)
    have horig1 : ∀ a ∈ orig, modMatches scope nm a = false :=
      fun a ha => horig a ha nm (by simp)
    have hfind : (orig ++ (f nm :: (rest.map f ++ B))).findIdx?
        (fun mod => modMatches scope nm mod) = some orig.length := by
      refine findIdx_append_cons_boundary _ orig _ _ ?_ hxm
      intro a ha
      simpa using horig1 a ha
    have herase : (orig ++ (f nm :: (rest.map f ++ B))).eraseIdx orig.length =
        orig ++ (rest.map f ++ B) := eraseIdx_append_cons orig (rest.map f ++ B) (f nm)
    have hget : (orig ++ (f nm :: (rest.map f ++ B))).getD orig.length default = f nm :=
      getD_append_cons orig (rest.map f ++ B) (f nm) default
    have hrest := ih (fun mod hm nm2 h2 => horig mod hm nm2 (by simp [h2]))
      (fun mod hm nm2 h2 => hB mod hm nm2 (by simp [h2]))
      (fun nm2 h2 => hf nm2 (by simp [h2]))
    rw [List.map_cons, List.cons_append]
    simp only [removeMods, hfind, herase, hget, hrest]

/-- A modifier resolved in a fixed category carries the requested trimmed
name and that category. -/
theorem findModifierInCategory_props (mi : MenuItem) (m cat : String)
    (r : AppliedModifier) (h : findModifierInCategory mi m cat = some r) :
    jsTrim r.optionName = jsTrim m ∧ r.category = cat := by
  unfold findModifierInCategory at h
  split at h
  · cases h
  · rcases hfc : mi.modifiers.find? (fun c => c.category = cat) with _ | c
    · rw [hfc] at h
      cases h
    · rw [hfc] at h
      simp only at h
      rcases hfo : c.options.find? (fun o => jsTrim o.name = jsTrim m) with _ | o
      · rw [hfo] at h
        cases h
      · rw [hfo] at h
        cases h
        constructor
        · simpa using List.find?_some hfo
        · simpa using List.find?_some hfc

/-- A modifier resolved by the any-category scan carries the requested
trimmed name. -/
theorem findModifierAnyCategory_go_trim (m : String) (cats : List ModifierCategory)
    (r : AppliedModifier) (h : findModifierAnyCategory.go m cats = some r) :
    jsTrim r.optionName = jsTrim m := by
  induction cats with
  | nil => cases h
  | cons c rest ih =>
    simp only [findModifierAnyCategory.go] at h
    split at h
    · cases h
      rename_i ho
      simpa using List.find?_some ho
    · exact ih h

/-- A modifier resolved by the any-category scan carries the requested
trimmed name (top-level version). -/
theorem findModifierAnyCategory_trim (mi : MenuItem) (m : String)
    (r : AppliedModifier) (h : findModifierAnyCategory mi m = some r) :
    jsTrim r.optionName = jsTrim m :=
  findModifierAnyCategory_go_trim m mi.modifiers r h

/-- Fixture: a zero-cost Hot spice menu option. -/
def hotOptFix : ModifierOption := ⟨"mh", "Hot", 0, "USD"⟩

/-- Fixture: a Sandwich menu item whose only category holds the Hot option. -/
def spicedMenuItemFix : MenuItem := ⟨"VS", 900, "USD", "", [⟨"Spice Level", [hotOptFix]⟩]⟩

/-- Fixture: a one-item menu for the spiced Sandwich. -/
def spicedMenuFix : Menu := [("Sandwich", spicedMenuItemFix)]

/-- Fixture: the Hot modifier as applied to a cart line. -/
def hotModFix : AppliedModifier := ⟨"Spice Level", "mh", "Hot", 0, "USD"⟩

/-- Fixture: a Sandwich line item that already carries the Hot modifier and
satisfies the line-total invariant (9 + 0) * 1 = 9. -/
def hotSandwichFix : CartItem :=
  ⟨"VS", "Sandwich", 900, "USD", "", 1, "", 9, 9, [hotModFix], "VS", "Sandwich"⟩

/-- Fixture: a store holding the Hot Sandwich. -/
def hotStoreFix : Store := ⟨some [hotSandwichFix], false, false⟩

/-- Claim C8 counterexample: with "Hot" already applied to the Sandwich,
addModifiers(["Hot"]) fails (every resolved modifier is a duplicate, 400)
and leaves the cart unchanged, but the immediately following
removeModifiers(["Hot"]) strips the PRE-EXISTING Hot — the round trip ends
with an empty modifier list instead of restoring the original [Hot]. -/
theorem addRemoveModifiers_roundtrip_cex :
    (addModifierToCart spicedMenuFix hotStoreFix "c" (some "Sandwich") ["Hot"] []).1.statusCode
      = 400 ∧
    (addModifierToCart spicedMenuFix hotStoreFix "c" (some "Sandwich") ["Hot"] []).2 =
      hotStoreFix ∧
    ((getSessionCart (removeModifierFromCart
        (addModifierToCart spicedMenuFix hotStoreFix "c" (some "Sandwich") ["Hot"] []).2
        "c" (some "Sandwich") ["Hot"] []).2 "c").map (fun it => it.modifiers)) = [[]] ∧
    hotSandwichFix.modifiers = [hotModFix] := by
  refine ⟨by decide, by decide, by decide, by decide⟩

/-- Running a mutation whose plan succeeds on the session cart (given under an
explicit name) writes the planned cart. -/
theorem runMutation_of_ok_cart (store : Store) (callId : String)
    (plan : List CartItem → Except ApiResponse (List CartItem × String))
    (cart nc : List CartItem) (msg : String)
    (hcart : getSessionCart store callId = cart)
    (h : plan cart = .ok (nc, msg))
    (hc : callId ≠ "") (hw : store.writeFails = false) :
    runMutation store callId plan = (⟨200, msg⟩, { store with cart := some nc }) := by
  subst hcart
  exact runMutation_of_ok store callId plan nc msg h hc hw

/-- Reading back a freshly written cart on a healthy store. -/
theorem getSessionCart_write (store : Store) (callId : String) (nc : List CartItem)
    (hc : callId ≠ "") (hr : store.readFails = false) :
    getSessionCart { store with cart := some nc } callId = nc := by
  simp [getSessionCart, hc, hr]

/-- Reading back after two successive writes on a healthy store. -/
theorem getSessionCart_write2 (store : Store) (callId : String) (nc1 nc : List CartItem)
    (hc : callId ≠ "") (hr : store.readFails = false) :
    getSessionCart { ({ store with cart := some nc1 } : Store) with cart := some nc }
      callId = nc := by
  simp [getSessionCart, hc, hr]

set_option maxHeartbeats 4000000 in
/-- Claim C8 (amended): addModifiers immediately followed by removeModifiers
with the same first/second-piece name lists restores the targeted line
item's modifier list and line total — indeed the whole stored cart —
provided the targeted entry satisfies the line-total pricing invariant,
every requested name resolves in the menu, the resolved optionIds are
pairwise distinct and none of them is already applied, and no requested
name matches (after trimming, within its piece scope) a modifier already
applied to the entry; the counterexample shows the round trip genuinely
fails without the last condition. -/
theorem addRemoveModifiers_roundtrip (menu : Menu) (store : Store) (callId n : String)
    (fm sm : List String) (mi : MenuItem) (i : Nat)
    (hc : callId ≠ "") (hn : n ≠ "")
    (hr : store.readFails = false) (hw : store.writeFails = false)
    (hmi : menuLookup menu n = some mi)
    (hidx : lastMatchIdx n (getSessionCart store callId) = some i)
    (hInv : lineTotalInvariant ((getSessionCart store callId).getD i default))
    (hfm : fm ≠ [])
    (hresF : ∀ m ∈ fm, ∃ r, resolveFirstMod mi n m = some r)
    (hresS : strContains n "(2pc)" = true → ∀ m ∈ sm, ∃ r, resolveSecondMod mi m = some r)
    (hnodup : ((resolvedModsOf mi n fm sm).map (fun r => r.optionId)).Nodup)
    (hfreshIds : ∀ r ∈ resolvedModsOf mi n fm sm,
      ∀ x ∈ ((getSessionCart store callId).getD i default).modifiers,
        ¬ x.optionId = r.optionId)
    (hname1 : ∀ m ∈ fm, ∀ mod ∈ ((getSessionCart store callId).getD i default).modifiers,
      modMatches (if strContains n "(2pc)" then some "Choose Your First Sandwich Mods" else none)
        m mod = false)
    (hname2 : strContains n "(2pc)" = true → ∀ m ∈ sm,
      ∀ mod ∈ ((getSessionCart store callId).getD i default).modifiers,
        modMatches (some "Choose Your Second Sandwich Mods") m mod = false) :
    (addModifierToCart menu store callId (some n) fm sm).1.statusCode = 200 ∧
    (removeModifierFromCart (addModifierToCart menu store callId (some n) fm sm).2
        callId (some n) fm sm).1.statusCode = 200 ∧
    getSessionCart (removeModifierFromCart
        (addModifierToCart menu store callId (some n) fm sm).2
        callId (some n) fm sm).2 callId = getSessionCart store callId := by
  have htr : jsTruthy (some n) = true := by simp [jsTruthy, hn]
  have hlists : ¬ (fm = [] ∧ sm = []) := fun hpair => hfm hpair.1
  obtain ⟨c0, hc0⟩ : ∃ c, getSessionCart store callId = c := ⟨_, rfl⟩
  rw [hc0] at hidx hInv hfreshIds hname1 hname2 ⊢
  obtain ⟨g, hg⟩ : ∃ x, c0.getD i default = x := ⟨_, rfl⟩
  rw [hg] at hInv hfreshIds hname1 hname2
  obtain ⟨R, hR⟩ : ∃ r, resolvedModsOf mi n fm sm = r := ⟨_, rfl⟩
  rw [hR] at hnodup hfreshIds
  obtain ⟨hilen, himatch, _⟩ := lastMatchIdx_spec n c0 i hidx
  have hInv2 : g.lineTotal = (g.unitPrice + modifierSum g.modifiers) * g.quantity := hInv
  have hgFs : ∀ m ∈ fm, resolveFirstMod mi n m =
      some ((resolveFirstMod mi n m).getD default) := by
    intro m hm
    obtain ⟨r, hr2⟩ := hresF m hm
    simp [hr2]
  have hRF : fm.filterMap (resolveFirstMod mi n) =
      fm.map (fun m => (resolveFirstMod mi n m).getD default) :=
    filterMap_eq_map_of_all_some _ _ fm hgFs
  have hmapne : fm.map (fun m => (resolveFirstMod mi n m).getD default) ≠ [] := by
    simpa using hfm
  have hRne : R ≠ [] := by
    rw [← hR]
    cases h2 : strContains n "(2pc)" <;> simp [resolvedModsOf, h2, hRF, hmapne]
  have hERne : g.modifiers ++ R ≠ [] := fun hco => hRne (List.append_eq_nil.mp hco).2
  have happ : applyMods g.modifiers R = (g.modifiers ++ R, R, []) :=
    applyMods_fresh g.modifiers R hnodup hfreshIds
  -- step 1: reduce the add plan
  rcases hp1 : addModifierToCartPlan menu (some n) fm sm c0 with e1p | pr1
  · exfalso
    simp only [addModifierToCartPlan, htr, Bool.not_true, Bool.false_eq_true, if_false,
      Option.getD_some, hmi, hR, hidx, hg, happ] at hp1
    rw [if_neg hlists, if_neg hRne, if_neg hRne] at hp1
    cases hp1
  obtain ⟨nc1, msg1⟩ := pr1
  have hq1 := hp1
  simp only [addModifierToCartPlan, htr, Bool.not_true, Bool.false_eq_true, if_false,
    Option.getD_some, hmi, hR, hidx, hg, happ] at hq1
  rw [if_neg hlists, if_neg hRne, if_neg hRne] at hq1
  injection hq1 with hq1p
  injection hq1p with hnc1 hmsg1
  subst hnc1
  have e1 := runMutation_of_ok_cart store callId
    (addModifierToCartPlan menu (some n) fm sm) c0 _ _ hc0 hp1 hc hw
  rw [addModifierToCart, if_neg hc, e1]
  refine ⟨rfl, ?_⟩
  show (removeModifierFromCart { store with cart := some (c0.set i
      { g with
        modifiers := g.modifiers ++ R
        lineTotal := (g.unitPrice + modifierSum (g.modifiers ++ R)) * g.quantity }) }
      callId (some n) fm sm).1.statusCode = 200 ∧
    getSessionCart (removeModifierFromCart { store with cart := some (c0.set i
      { g with
        modifiers := g.modifiers ++ R
        lineTotal := (g.unitPrice + modifierSum (g.modifiers ++ R)) * g.quantity }) }
      callId (some n) fm sm).2 callId = c0
  -- step 2: shared facts about the written cart
  have hgs1 := getSessionCart_write store callId (c0.set i
    { g with
      modifiers := g.modifiers ++ R
      lineTotal := (g.unitPrice + modifierSum (g.modifiers ++ R)) * g.quantity }) hc hr
  have hXne : c0.set i
      { g with
        modifiers := g.modifiers ++ R
        lineTotal := (g.unitPrice + modifierSum (g.modifiers ++ R)) * g.quantity } ≠ [] :=
    List.ne_nil_of_length_pos (by rw [List.length_set]; omega)
  have hmm1 : matchesName
      { g with
        modifiers := g.modifiers ++ R
        lineTotal := (g.unitPrice + modifierSum (g.modifiers ++ R)) * g.quantity } n
      = matchesName (c0.getD i default) n := by
    rw [hg]
    simp [matchesName]
  have hidx1 : lastMatchIdx n (c0.set i
      { g with
        modifiers := g.modifiers ++ R
        lineTotal := (g.unitPrice + modifierSum (g.modifiers ++ R)) * g.quantity }) = some i := by
    rw [lastMatchIdx_set n c0 i _ hmm1]
    exact hidx
  have hgd1 := getD_set_self c0 i
    { g with
      modifiers := g.modifiers ++ R
      lineTotal := (g.unitPrice + modifierSum (g.modifiers ++ R)) * g.quantity } hilen
  cases h2 : strContains n "(2pc)" with
  | false =>
    have hRval : R = fm.map (fun m => (resolveFirstMod mi n m).getD default) := by
      rw [← hR, resolvedModsOf, hRF,
        if_neg (by simp [h2] : ¬ strContains n "(2pc)" = true), List.append_nil]
    have hfmod : ∀ nm ∈ fm, modMatches none nm
        ((resolveFirstMod mi n nm).getD default) = true := by
      intro nm hm
      obtain ⟨r, hres⟩ := hresF nm hm
      have hany : findModifierAnyCategory mi nm = some r := by
        have hres2 := hres
        rw [resolveFirstMod, if_neg (by simp [h2] : ¬ strContains n "(2pc)" = true)] at hres2
        exact hres2
      have htrim := findModifierAnyCategory_trim mi nm r hany
      rw [hres]
      simp [modMatches, htrim]
    have horig1 : ∀ mod ∈ g.modifiers, ∀ nm ∈ fm, modMatches none nm mod = false := by
      intro mod hmod nm hnm
      have h0 := hname1 nm hnm mod hmod
      rwa [if_neg (by simp [h2] : ¬ strContains n "(2pc)" = true)] at h0
    have hrm1 := removeMods_appended none fm
      (fun m => (resolveFirstMod mi n m).getD default) g.modifiers [] horig1 (by simp) hfmod
    simp only [List.append_nil] at hrm1
    rw [← hRval] at hrm1
    rcases hp2 : removeModifierFromCartPlan (some n) fm sm (c0.set i
        { g with
          modifiers := g.modifiers ++ R
          lineTotal := (g.unitPrice + modifierSum (g.modifiers ++ R)) * g.quantity })
      with e2p | pr2
    · exfalso
      simp only [removeModifierFromCartPlan, htr, Bool.not_true, Bool.false_eq_true, if_false,
        Option.getD_some, hidx1, hgd1, h2, hrm1, List.append_nil] at hp2
      rw [if_neg hlists, if_neg hXne, if_neg hERne, if_neg hRne] at hp2
      cases hp2
    obtain ⟨nc2, msg2⟩ := pr2
    have hq2 := hp2
    simp only [removeModifierFromCartPlan, htr, Bool.not_true, Bool.false_eq_true, if_false,
      Option.getD_some, hidx1, hgd1, h2, hrm1, List.append_nil] at hq2
    rw [if_neg hlists, if_neg hXne, if_neg hERne, if_neg hRne] at hq2
    injection hq2 with hq2p
    injection hq2p with hnc2 hmsg2
    subst hnc2
    have e2 := runMutation_of_ok_cart
      { store with cart := some (c0.set i
        { g with
          modifiers := g.modifiers ++ R
          lineTotal := (g.unitPrice + modifierSum (g.modifiers ++ R)) * g.quantity }) }
      callId (removeModifierFromCartPlan (some n) fm sm) _ _ _ hgs1 hp2 hc hw
    rw [removeModifierFromCart, if_neg hc, e2]
    refine ⟨rfl, ?_⟩
    show getSessionCart { ({ store with cart := some (c0.set i
        { g with
          modifiers := g.modifiers ++ R
          lineTotal := (g.unitPrice + modifierSum (g.modifiers ++ R)) * g.quantity }) } : Store)
        with cart := some ((c0.set i
          { g with
            modifiers := g.modifiers ++ R
            lineTotal := (g.unitPrice + modifierSum (g.modifiers ++ R)) * g.quantity }).set i
          { g with lineTotal := (g.unitPrice + modifierSum g.modifiers) * g.quantity }) }
      callId = c0
    rw [getSessionCart_write2 store callId _ _ hc hr, List.set_set,
      show ({ g with lineTotal := (g.unitPrice + modifierSum g.modifiers) * g.quantity } :
        CartItem) = g from by rw [← hInv2], ← hg]
    exact set_getD_self c0 i hilen
  | true =>
    have hgSs : ∀ m ∈ sm, resolveSecondMod mi m =
        some ((resolveSecondMod mi m).getD default) := by
      intro m hm
      obtain ⟨r, hr2⟩ := hresS h2 m hm
      simp [hr2]
    have hRS : sm.filterMap (resolveSecondMod mi) =
        sm.map (fun m => (resolveSecondMod mi m).getD default) :=
      filterMap_eq_map_of_all_some _ _ sm hgSs
    have hRval : R = fm.map (fun m => (resolveFirstMod mi n m).getD default) ++
        sm.map (fun m => (resolveSecondMod mi m).getD default) := by
      rw [← hR, resolvedModsOf, hRF, hRS, if_pos h2]
    have hremne : fm.map (fun m => (resolveFirstMod mi n m).getD default) ++
        sm.map (fun m => (resolveSecondMod mi m).getD default) ≠ [] :=
      fun hco => hmapne (List.append_eq_nil.mp hco).1
    have hfmodF : ∀ nm ∈ fm, modMatches (some "Choose Your First Sandwich Mods") nm
        ((resolveFirstMod mi n nm).getD default) = true := by
      intro nm hm
      obtain ⟨r, hres⟩ := hresF nm hm
      have hcat : findModifierInCategory mi nm "Choose Your First Sandwich Mods" = some r := by
        have hres2 := hres
        rw [resolveFirstMod, if_pos h2] at hres2
        exact hres2
      obtain ⟨htrim, hcat2⟩ := findModifierInCategory_props mi nm
        "Choose Your First Sandwich Mods" r hcat
      rw [hres]
      simp [modMatches, htrim, hcat2]
    have hsmodS : ∀ nm ∈ sm, modMatches (some "Choose Your Second Sandwich Mods") nm
        ((resolveSecondMod mi nm).getD default) = true := by
      intro nm hm
      obtain ⟨r, hres⟩ := hresS h2 nm hm
      have hcat : findModifierInCategory mi nm "Choose Your Second Sandwich Mods" = some r := by
        have hres2 := hres
        rw [resolveSecondMod] at hres2
        exact hres2
      obtain ⟨htrim, hcat2⟩ := findModifierInCategory_props mi nm
        "Choose Your Second Sandwich Mods" r hcat
      rw [hres]
      simp [modMatches, htrim, hcat2]
    have hBF : ∀ mod ∈ sm.map (fun m => (resolveSecondMod mi m).getD default),
        ∀ nm ∈ fm, modMatches (some "Choose Your First Sandwich Mods") nm mod = false := by
      intro mod hmod nm _
      obtain ⟨m0, hm0, hmod0⟩ := List.mem_map.mp hmod
      have hres := hgSs m0 hm0
      rw [resolveSecondMod] at hres
      obtain ⟨_, hcat2⟩ := findModifierInCategory_props mi m0
        "Choose Your Second Sandwich Mods" _ hres
      subst hmod0
      simp [modMatches, resolveSecondMod, hcat2]
    have horigF : ∀ mod ∈ g.modifiers, ∀ nm ∈ fm,
        modMatches (some "Choose Your First Sandwich Mods") nm mod = false := by
      intro mod hmod nm hnm
      have h0 := hname1 nm hnm mod hmod
      rwa [if_pos h2] at h0
    have horigS : ∀ mod ∈ g.modifiers, ∀ nm ∈ sm,
        modMatches (some "Choose Your Second Sandwich Mods") nm mod = false :=
      fun mod hmod nm hnm => hname2 h2 nm hnm mod hmod
    have hrm1 := removeMods_appended (some "Choose Your First Sandwich Mods") fm
      (fun m => (resolveFirstMod mi n m).getD default) g.modifiers
      (sm.map (fun m => (resolveSecondMod mi m).getD default)) horigF hBF hfmodF
    rw [← hRval] at hrm1
    have hrm2 := removeMods_appended (some "Choose Your Second Sandwich Mods") sm
      (fun m => (resolveSecondMod mi m).getD default) g.modifiers [] horigS (by simp) hsmodS
    simp only [List.append_nil] at hrm2
    rcases hp2 : removeModifierFromCartPlan (some n) fm sm (c0.set i
        { g with
          modifiers := g.modifiers ++ R
          lineTotal := (g.unitPrice + modifierSum (g.modifiers ++ R)) * g.quantity })
      with e2p | pr2
    · exfalso
      simp only [removeModifierFromCartPlan, htr, Bool.not_true, Bool.false_eq_true, if_false,
        Option.getD_some, hidx1, hgd1, h2, eq_self_iff_true, if_true, hrm1, hrm2,
        List.append_nil] at hp2
      rw [if_neg hlists, if_neg hXne, if_neg hERne, if_neg hremne] at hp2
      cases hp2
    obtain ⟨nc2, msg2⟩ := pr2
    have hq2 := hp2
    simp only [removeModifierFromCartPlan, htr, Bool.not_true, Bool.false_eq_true, if_false,
      Option.getD_some, hidx1, hgd1, h2, eq_self_iff_true, if_true, hrm1, hrm2,
      List.append_nil] at hq2
    rw [if_neg hlists, if_neg hXne, if_neg hERne, if_neg hremne] at hq2
    injection hq2 with hq2p
    injection hq2p with hnc2 hmsg2
    subst hnc2
    have e2 := runMutation_of_ok_cart
      { store with cart := some (c0.set i
        { g with
          modifiers := g.modifiers ++ R
          lineTotal := (g.unitPrice + modifierSum (g.modifiers ++ R)) * g.quantity }) }
      callId (removeModifierFromCartPlan (some n) fm sm) _ _ _ hgs1 hp2 hc hw
    rw [removeModifierFromCart, if_neg hc, e2]
    refine ⟨rfl, ?_⟩
    show getSessionCart { ({ store with cart := some (c0.set i
        { g with
          modifiers := g.modifiers ++ R
          lineTotal := (g.unitPrice + modifierSum (g.modifiers ++ R)) * g.quantity }) } : Store)
        with cart := some ((c0.set i
          { g with
            modifiers := g.modifiers ++ R
            lineTotal := (g.unitPrice + modifierSum (g.modifiers ++ R)) * g.quantity }).set i
          { g with lineTotal := (g.unitPrice + modifierSum g.modifiers) * g.quantity }) }
      callId = c0
    rw [getSessionCart_write2 store callId _ _ hc hr, List.set_set,
      show ({ g with lineTotal := (g.unitPrice + modifierSum g.modifiers) * g.quantity } :
        CartItem) = g from by rw [← hInv2], ← hg]
    exact set_getD_self c0 i hilen

/-- Fixture: a Sandwich line item carrying no modifiers, satisfying the
line-total invariant (9 + 0) * 1 = 9. -/
def plainSpicedSandwichFix : CartItem :=
  ⟨"VS", "Sandwich", 900, "USD", "", 1, "", 9, 9, [], "VS", "Sandwich"⟩

/-- Fixture: a store holding the unmodified Sandwich. -/
def plainSpicedStoreFix : Store := ⟨some [plainSpicedSandwichFix], false, false⟩

/-- Witness for the amended C8 round trip: adding then removing "Hot" on the
unmodified Sandwich succeeds twice and restores the stored cart. -/
theorem addRemoveModifiers_roundtrip_witness :
    (addModifierToCart spicedMenuFix plainSpicedStoreFix "c" (some "Sandwich")
        ["Hot"] []).1.statusCode = 200 ∧
    (removeModifierFromCart (addModifierToCart spicedMenuFix plainSpicedStoreFix "c"
          (some "Sandwich") ["Hot"] []).2
        "c" (some "Sandwich") ["Hot"] []).1.statusCode = 200 ∧
    getSessionCart (removeModifierFromCart
        (addModifierToCart spicedMenuFix plainSpicedStoreFix "c" (some "Sandwich") ["Hot"] []).2
        "c" (some "Sandwich") ["Hot"] []).2 "c" =
      getSessionCart plainSpicedStoreFix "c" :=
  addRemoveModifiers_roundtrip spicedMenuFix plainSpicedStoreFix "c" "Sandwich" ["Hot"] []
    spicedMenuItemFix 0 (by decide) (by decide) rfl rfl (by decide) (by decide)
    (by rw [show (getSessionCart plainSpicedStoreFix "c").getD 0 default =
          plainSpicedSandwichFix from by decide]
        norm_num [lineTotalInvariant, plainSpicedSandwichFix, modifierSum])
    (by decide)
    (by intro m hm
        simp only [List.mem_singleton] at hm
        subst hm
        exact ⟨_, rfl⟩)
    (by intro h; exact absurd h (by decide))
    (by decide) (by decide) (by decide) (by decide)
